import Mathlib

/-!
# evshim: virtual controller bridge

A shallow embedding of `app/src/main/cpp/extras/evshim.c`.

* C `int`, `ssize_t` values are `Int`; bytes, `uint8_t` and `uint16_t` values are `Nat`.
* Memory that the source treats as raw bytes (`struct gamepad_io cur`, file contents) is a
  `List Nat` of bytes; the target ABI (arm64 / x86_64) is little-endian.
* Calls into the outside world (SDL, libc, the kernel) are recorded in a trace of `Event`s;
  what the outside world answers is an explicit parameter.
* A call through a function pointer that `dlsym` left `NULL` ends the run with
  `crashed = true`.
-/

namespace Evshim

/-! ## Constants of the source -/

/-- The C `#define MAX_GAMEPADS 4`. -/
def MAX_GAMEPADS : Nat := 4

/-- The C `sizeof (struct gamepad_io)`: 6 × int16, 15 + 1 + 4 × uint8, 2 × uint16. -/
def sizeof_gamepad_io : Nat := 36

/-- The C `STDOUT_FILENO`. -/
def STDOUT_FILENO : Int := 1

/-- The C `STDERR_FILENO`. -/
def STDERR_FILENO : Int := 2

/-- The C `O_RDONLY` of `<fcntl.h>` (Linux). -/
def O_RDONLY : Nat := 0

/-- The C `O_WRONLY` of `<fcntl.h>` (Linux). -/
def O_WRONLY : Nat := 1

/-- The C `O_CREAT` of `<fcntl.h>` (Linux, octal 0100). -/
def O_CREAT : Nat := 64

/-- The C `O_RDWR` of `<fcntl.h>` (Linux). -/
def O_RDWR : Nat := 2

/-- The C `O_TMPFILE` of `<fcntl.h>` (Linux x86_64, octal 020200000): a flag without
`O_CREAT` for which `open` takes a mode. -/
def O_TMPFILE : Nat := 4259840

/-- The C `ENOENT` of `<errno.h>`. -/
def ENOENT : Nat := 2

/-- The C `EBADF` of `<errno.h>`. -/
def EBADF : Nat := 9

/-- The C `EAGAIN` of `<errno.h>`. -/
def EAGAIN : Nat := 11

/-- The C `ENOTTY` of `<errno.h>`. -/
def ENOTTY : Nat := 25

/-! ## The backend entry points and the trace of outside calls -/

/-- The ten `p_SDL_*` function pointers: `true` when the pointer is non-`NULL`. -/
structure Symbols where
  SDL_Init : Bool
  SDL_GetError : Bool
  SDL_JoystickOpen : Bool
  SDL_JoystickAttachVirtualEx : Bool
  SDL_JoystickSetVirtualAxis : Bool
  SDL_JoystickSetVirtualButton : Bool
  SDL_JoystickSetVirtualHat : Bool
  SDL_PumpEvents : Bool
  SDL_Delay : Bool
  SDL_GetVersion : Bool
  deriving DecidableEq, Repr

/-- File-scope function pointers before `GETFUNCPTR` ran: all `NULL`. -/
def Symbols.null : Symbols :=
  ⟨false, false, false, false, false, false, false, false, false, false⟩

/-- Every entry point resolved. -/
def Symbols.all : Symbols :=
  ⟨true, true, true, true, true, true, true, true, true, true⟩

/-- The thread start routines of the source. -/
inductive ThreadEntry where
  | vjoy_updater
  | event_pump_thread
  deriving DecidableEq, Repr

/-- The fields of `SDL_VirtualJoystickDesc` that `initialize_all_pads` fills in
(`Rumble` is always `&OnRumble`). -/
structure VirtualJoystickDesc where
  naxes : Nat
  nbuttons : Nat
  nhats : Nat
  name : String
  userdata : Int
  deriving DecidableEq, Repr

/-- One call that leaves the translation unit, with the result the caller observed
where the source looks at it. -/
inductive Event where
  | dprintf (fd : Int) (fmt : String)
  | mutex_lock
  | mutex_unlock
  | pwrite (fd : Int) (buf : List Nat) (count : Nat) (offset : Nat) (ret : Int)
  | read (fd : Int) (count : Nat) (ret : Int)
  | SDL_JoystickSetVirtualAxis (axis : Nat) (value : Int)
  | SDL_JoystickSetVirtualButton (button : Nat) (value : Nat)
  | SDL_JoystickSetVirtualHat (hat : Nat) (value : Nat)
  | SDL_JoystickOpen (device_index : Int)
  | SDL_PumpEvents
  | SDL_Delay (ms : Nat)
  | dlopen (file : String) (ok : Bool)
  | dlsym (name : String) (ok : Bool)
  | SDL_Init
  | SDL_GetVersion
  | SDL_GetError
  | open_call (path : Option String) (flags : Nat) (mode : Nat) (ret : Int)
  | close (fd : Int)
  | SDL_JoystickAttachVirtualEx (desc : VirtualJoystickDesc) (ret : Int)
  | pthread_create (start : ThreadEntry) (arg : Int)
  | pthread_detach
  deriving DecidableEq, Repr

/-- The C `LOGI(...)`: `dprintf(STDOUT_FILENO, ...)`. -/
def LOGI (fmt : String) : List Event := [Event.dprintf STDOUT_FILENO fmt]

/-- The C `LOGE(...)`: `dprintf(STDERR_FILENO, ...)`. -/
def LOGE (fmt : String) : List Event := [Event.dprintf STDERR_FILENO fmt]

/-- The C `LOGD(...)`: `dprintf(STDOUT_FILENO, ...)` only when `g_debug_enabled`. -/
def LOGD (g_debug_enabled : Bool) (fmt : String) : List Event :=
  if g_debug_enabled then [Event.dprintf STDOUT_FILENO fmt] else []

/-! ## File-scope state -/

/-- The file-scope variables of `evshim.c`. -/
structure Globals where
  g_debug_enabled : Bool
  vjoy_ids : List Int
  read_fd : List Int
  rumble_fd : List Int
  handle : Bool
  p : Symbols
  deriving DecidableEq, Repr

/-- The value of `static int a[MAX_GAMEPADS] = {-1};`: the initializer list names the
first element only, the remaining elements are zero-initialized. -/
def array_init : List Int := (-1) :: List.replicate (MAX_GAMEPADS - 1) 0

/-- The file-scope variables at load time, before the constructor runs. -/
def Globals.init : Globals :=
  { g_debug_enabled := false
    vjoy_ids := array_init
    read_fd := array_init
    rumble_fd := array_init
    handle := false
    p := Symbols.null }

/-- Array read `a[i]`. -/
def aget (a : List Int) (i : Nat) : Int := a.getD i 0

/-- Array write `a[i] = v`. -/
def aset (a : List Int) (i : Nat) (v : Int) : List Int := a.set i v

/-! ## `struct gamepad_io` -/

/-- The C `struct gamepad_io`, the typed view of a 36-byte record. -/
structure gamepad_io where
  lx : Int
  ly : Int
  rx : Int
  ry : Int
  lt : Int
  rt : Int
  btn : List Nat
  hat : Nat
  _padding : List Nat
  low_freq_rumble : Nat
  high_freq_rumble : Nat
  deriving DecidableEq, Repr

/-- The byte at offset `off` of a memory image. -/
def byte_at (m : List Nat) (off : Nat) : Nat := m.getD off 0

/-- The `uint16_t` stored little-endian at offset `off`. -/
def u16_at (m : List Nat) (off : Nat) : Nat := byte_at m off + 256 * byte_at m (off + 1)

/-- The `int16_t` stored little-endian at offset `off` (two's complement). -/
def i16_at (m : List Nat) (off : Nat) : Int :=
  if u16_at m off < 32768 then (u16_at m off : Int) else (u16_at m off : Int) - 65536

/-- The fields of the record held in the memory image `m`, at the offsets the
declaration of `struct gamepad_io` gives them. -/
def gamepad_io.of_bytes (m : List Nat) : gamepad_io :=
  { lx := i16_at m 0
    ly := i16_at m 2
    rx := i16_at m 4
    ry := i16_at m 6
    lt := i16_at m 8
    rt := i16_at m 10
    btn := (List.range 15).map (fun i => byte_at m (12 + i))
    hat := byte_at m 27
    _padding := (List.range 4).map (fun i => byte_at m (28 + i))
    low_freq_rumble := u16_at m 32
    high_freq_rumble := u16_at m 34 }

/-- The object representation of a `uint16_t` on the little-endian target. -/
def u16_bytes (v : Nat) : List Nat := [v % 256, v / 256 % 256]

/-- The C `memcmp(a, b, n)`: zero when the first `n` bytes agree, otherwise the difference of
the first pair of bytes that differ. -/
def memcmp : List Nat → List Nat → Nat → Int
  | _, _, 0 => 0
  | a :: as, b :: bs, n + 1 => if a = b then memcmp as bs n else (a : Int) - (b : Int)
  | _, _, _ + 1 => 0

/-! ## C strings and the interception predicate -/

/-- The C `strncmp(a, b, n)` on NUL-terminated strings given without their terminator: zero
when the strings agree on their first `n` characters (or both end before that). -/
def strncmp : List Char → List Char → Nat → Int
  | _, _, 0 => 0
  | [], [], _ + 1 => 0
  | [], b :: _, _ + 1 => - (b.toNat : Int)
  | a :: _, [], _ + 1 => (a.toNat : Int)
  | a :: as, b :: bs, n + 1 =>
      if a = b then strncmp as bs n else (a.toNat : Int) - (b.toNat : Int)

/-- The C `is_event_node(p)`: `p && !strncmp(p, "/dev/input/event", 16)`; a `NULL` pointer is
`none`. -/
def is_event_node (p : Option String) : Bool :=
  match p with
  | none => false
  | some s => strncmp s.toList "/dev/input/event".toList 16 == 0

/-! ## The kernel side: descriptors and file contents -/

/-- An open file description: the path `/proc/self/fd/N` resolves to, the access mode
and the file position. -/
structure OpenFile where
  path : String
  readable : Bool
  writable : Bool
  pos : Nat
  deriving DecidableEq, Repr

/-- The descriptor table of the process and the contents of the files. -/
structure Kernel where
  fdtab : Int → Option OpenFile
  files : String → List Nat

/-- The contents of a file after `buf` was written at offset `off`: a gap between the
old end of file and `off` reads as zero bytes. -/
def write_at (content : List Nat) (off : Nat) (buf : List Nat) : List Nat :=
  content.take off ++ List.replicate (off - content.length) 0 ++ buf
    ++ content.drop (off + buf.length)

/-- The C `pwrite(fd, buf, count, offset)`. `accept` is the transfer the kernel grants: a
negative value is an I/O error, otherwise the number of bytes it is willing to take.
The file position of the descriptor is not used and not changed. -/
def sys_pwrite (k : Kernel) (accept : Int) (fd : Int) (buf : List Nat) (count : Nat)
    (offset : Nat) : Kernel × Int :=
  match k.fdtab fd with
  | none => (k, -1)
  | some f =>
      if f.writable = false then (k, -1)
      else if accept < 0 then (k, -1)
      else
        let n := min accept.toNat count
        if n = 0 then (k, 0)
        else
          ({ k with files := Function.update k.files f.path
                      (write_at (k.files f.path) offset (buf.take n)) }, (n : Int))

/-- What a `read` hands back: the return value and the bytes stored into the buffer. -/
structure ReadResult where
  kernel : Kernel
  ret : Int
  errno : Option Nat
  data : List Nat

/-- The real `read(fd, buf, count)` on a regular file: transfers the bytes from the
file position of the descriptor up to the end of file, at most `count`, and advances
the file position by the number of bytes transferred. -/
def real_read (k : Kernel) (fd : Int) (count : Nat) : ReadResult :=
  match k.fdtab fd with
  | none => ⟨k, -1, some EBADF, []⟩
  | some f =>
      if f.readable = false then ⟨k, -1, some EBADF, []⟩
      else
        let data := ((k.files f.path).drop f.pos).take count
        ⟨{ k with fdtab := Function.update k.fdtab fd
                    (some { f with pos := f.pos + data.length }) },
          (data.length : Int), none, data⟩

/-- The C `readlink("/proc/self/fd/<fd>", path, sizeof path - 1)` followed by `path[n] = 0`:
the resolved path cut to the 63 bytes the buffer holds, `none` when the call fails or
returns zero (`n > 0` is false). -/
def resolve_fd (k : Kernel) (fd : Int) : Option String :=
  match k.fdtab fd with
  | none => none
  | some f => if f.path.length = 0 then none else some (String.mk (f.path.toList.take 63))

/-- The interposed `read`: descriptors that resolve to an event node fail with
`EAGAIN`, every other descriptor goes to the real `read`. -/
def read (k : Kernel) (fd : Int) (count : Nat) : ReadResult :=
  match resolve_fd k fd with
  | some path =>
      if is_event_node (some path) then ⟨k, -1, some EAGAIN, []⟩
      else real_read k fd count
  | none => real_read k fd count

/-! ## Rumble bridge -/

/-- What one `OnRumble` call did. -/
structure RumbleResult where
  ret : Int
  trace : List Event
  kernel : Kernel

/-- The C `OnRumble(userdata, low_frequency_rumble, high_frequency_rumble)`, with
`idx = (int)(intptr_t)userdata`. -/
def OnRumble (g : Globals) (k : Kernel) (accept : Int) (idx : Int)
    (low_frequency_rumble high_frequency_rumble : Nat) : RumbleResult :=
  if idx < 0 ∨ idx ≥ (MAX_GAMEPADS : Int) ∨ aget g.rumble_fd idx.toNat < 0 then
    ⟨-1, [], k⟩
  else
    let vals := u16_bytes low_frequency_rumble ++ u16_bytes high_frequency_rumble
    let fd := aget g.rumble_fd idx.toNat
    let w := sys_pwrite k accept fd vals 4 32
    ⟨0,
      [Event.mutex_lock, Event.pwrite fd vals 4 32 w.2, Event.mutex_unlock]
        ++ (if w.2 ≠ 4 then LOGE "Rumble write failed (P%d): %s\n" else [])
        ++ LOGD g.g_debug_enabled "Rumble P%d  low=%u  high=%u\n",
      w.1⟩

/-! ## Event pump and per-slot poller -/

/-- One turn of the `for (;;)` loop of `event_pump_thread`: the calls made and whether
the turn ended in a call through a `NULL` pointer. -/
def event_pump_thread_iter (p : Symbols) : List Event × Bool :=
  if p.SDL_PumpEvents = false then ([], true)
  else if p.SDL_Delay = false then ([Event.SDL_PumpEvents], true)
  else ([Event.SDL_PumpEvents, Event.SDL_Delay 5], false)

/-- The locals of `vjoy_updater` that live across loop turns. -/
structure Poller where
  idx : Int
  fd : Int
  cur : List Nat
  last_state : List Nat
  deriving DecidableEq, Repr

/-- The state of a poller thread after some code ran: its locals, the calls made and
whether it ended in a call through a `NULL` pointer. -/
structure PollResult where
  poller : Poller
  trace : List Event
  crashed : Bool
  deriving DecidableEq, Repr

/-- The publish block of `vjoy_updater` (lines 117-127): six axis calls, fifteen
button calls, one hat call, cut at the first call through a `NULL` pointer. -/
def publish (p : Symbols) (c : gamepad_io) : List Event × Bool :=
  if p.SDL_JoystickSetVirtualAxis = false then ([], true)
  else
    let axes :=
      [Event.SDL_JoystickSetVirtualAxis 0 c.lx, Event.SDL_JoystickSetVirtualAxis 1 c.ly,
       Event.SDL_JoystickSetVirtualAxis 2 c.rx, Event.SDL_JoystickSetVirtualAxis 3 c.ry,
       Event.SDL_JoystickSetVirtualAxis 4 c.lt, Event.SDL_JoystickSetVirtualAxis 5 c.rt]
    if p.SDL_JoystickSetVirtualButton = false then (axes, true)
    else
      let buttons :=
        (List.range 15).map (fun i => Event.SDL_JoystickSetVirtualButton i (c.btn.getD i 0))
      if p.SDL_JoystickSetVirtualHat = false then (axes ++ buttons, true)
      else (axes ++ buttons ++ [Event.SDL_JoystickSetVirtualHat 0 c.hat], false)

/-- The end of a loop turn of `vjoy_updater`: unlock, then `p_SDL_Delay(5)`. -/
def poll_finish (p : Symbols) (st : Poller) (trace : List Event) : PollResult :=
  if p.SDL_Delay = false then ⟨st, trace ++ [Event.mutex_unlock], true⟩
  else ⟨st, trace ++ [Event.mutex_unlock, Event.SDL_Delay 5], false⟩

/-- One turn of the `for (;;)` loop of `vjoy_updater`, given what `read` returned:
`n` is its return value and `data` the bytes it stored at the start of `cur`. -/
def poll_body (p : Symbols) (st : Poller) (n : Int) (data : List Nat) : PollResult :=
  let cur := data ++ st.cur.drop data.length
  let head := [Event.mutex_lock, Event.read st.fd sizeof_gamepad_io n]
  if n = (sizeof_gamepad_io : Int) ∧ memcmp cur st.last_state sizeof_gamepad_io ≠ 0 then
    let pub := publish p (gamepad_io.of_bytes cur)
    if pub.2 then ⟨{ st with cur := cur }, head ++ pub.1, true⟩
    else poll_finish p { st with cur := cur, last_state := cur } (head ++ pub.1)
  else if n < 0 then
    poll_finish p { st with cur := cur } (head ++ LOGE "P%d: read error: %s\n")
  else
    poll_finish p { st with cur := cur } head

/-- One turn of the loop of `vjoy_updater` against the kernel: the `read` of line 113
is the interposed `read` of this translation unit. -/
def vjoy_updater_iter (p : Symbols) (k : Kernel) (st : Poller) : Kernel × PollResult :=
  let r := read k st.fd sizeof_gamepad_io
  (r.kernel, poll_body p st r.ret r.data)

/-- The part of `vjoy_updater` before the loop. `js_ok` tells whether
`SDL_JoystickOpen` returned a joystick, `cur0` is the indeterminate initial content of
the local `cur`. The poller is `none` when the thread returns before the loop. -/
def vjoy_updater_start (g : Globals) (js_ok : Bool) (cur0 : List Nat) (idx : Int) :
    Option Poller × List Event × Bool :=
  let fd := aget g.read_fd idx.toNat
  if fd < 0 then (none, LOGE "P%d: read_fd not initialised – aborting thread\n", false)
  else if g.p.SDL_JoystickOpen = false then (none, [], true)
  else
    let opened := [Event.SDL_JoystickOpen (aget g.vjoy_ids idx.toNat)]
    if js_ok = false then (none, opened ++ LOGE "P%d: SDL_JoystickOpen failed\n", false)
    else
      (some ⟨idx, fd, cur0, List.replicate sizeof_gamepad_io 0⟩,
        opened ++ LOGI "VJOY UPDATER P%d running (PID %d)\n", false)

/-! ## The interposed `open` -/

/-- What an interposed `open` did: its return value, the value it stored to `errno`
itself, and the call of the real `open` it made. -/
structure OpenResult where
  ret : Int
  errno : Option Nat
  trace : List Event
  deriving DecidableEq, Repr

/-- The C `open_common(path, flags, ap)`. `real_open` is the `open` of the C library, `ap` the
value `va_arg(ap, mode_t)` fetches. -/
def open_common (real_open : Option String → Nat → Nat → Int) (path : Option String)
    (flags : Nat) (ap : Nat) : OpenResult :=
  if is_event_node path then ⟨-1, some ENOENT, []⟩
  else
    let mode := if flags &&& O_CREAT ≠ 0 then ap else 0
    ⟨real_open path flags mode, none, [Event.open_call path flags mode (real_open path flags mode)]⟩

/-- The interposed `open(path, flags, ...)`. -/
def «open» (real_open : Option String → Nat → Nat → Int) (path : Option String)
    (flags : Nat) (ap : Nat) : OpenResult :=
  open_common real_open path flags ap

/-- The interposed `open64(path, flags, ...)`. -/
def open64 (real_open : Option String → Nat → Nat → Int) (path : Option String)
    (flags : Nat) (ap : Nat) : OpenResult :=
  open_common real_open path flags ap

/-! ## Configuration from the process environment -/

/-- The C `strchr(s, c)`: the offset of the first `c` in `s`, the terminating NUL counting as
part of the string; `none` is the `NULL` result. -/
def strchr : List Char → Char → Option Nat
  | [], c => if c.toNat = 0 then some 0 else none
  | a :: as, c => if a = c then some 0 else (strchr as c).map (fun n => n + 1)

/-- The character `*s` of a C string: its first character, NUL when it is empty. -/
def deref (s : String) : Char := s.toList.headD (Char.ofNat 0)

/-- Line 147: `dbg && strchr("1yY", *dbg)`. -/
def debug_enabled (dbg : Option String) : Bool :=
  match dbg with
  | none => false
  | some s => (strchr "1yY".toList (deref s)).isSome

/-- The C `isspace` in the C locale. -/
def isspace (c : Char) : Bool := c.toNat = 32 || (9 ≤ c.toNat && c.toNat ≤ 13)

/-- The C `isdigit`. -/
def isdigit (c : Char) : Bool := 48 ≤ c.toNat && c.toNat ≤ 57

/-- The value of the leading decimal digits of `s`, continuing from `acc`. -/
def digits_value : List Char → Nat → Nat
  | [], acc => acc
  | c :: cs, acc => if isdigit c then digits_value cs (acc * 10 + (c.toNat - 48)) else acc

/-- The C `strtol(s, NULL, 10)` on an LP64 target: white space, an optional sign, decimal
digits; the value is clamped to the range of `long`. -/
def strtol10 (s : List Char) : Int :=
  match s.dropWhile isspace with
  | '-' :: r => max (-(2 : Int) ^ 63) (-(digits_value r 0 : Int))
  | '+' :: r => min ((2 : Int) ^ 63 - 1) (digits_value r 0 : Int)
  | t => min ((2 : Int) ^ 63 - 1) (digits_value t 0 : Int)

/-- Conversion of a `long` to `int`: the low 32 bits, two's complement. -/
def to_int (v : Int) : Int := (v + 2 ^ 31) % 2 ^ 32 - 2 ^ 31

/-- The C `atoi(s)`, which the C library defines as `(int) strtol(s, NULL, 10)`. -/
def atoi (s : String) : Int := to_int (strtol10 s.toList)

/-- Lines 165-166: the player count, from `EVSHIM_MAX_PLAYERS`. -/
def configured_players (v : Option String) : Int :=
  let players := match v with
    | some s => atoi s
    | none => 1
  if players > (MAX_GAMEPADS : Int) then (MAX_GAMEPADS : Int) else players

/-- The C `snprintf(buf, size, ...)`: the formatted text cut to `size - 1` characters. -/
def snprintf (size : Nat) (text : String) : String := String.mk (text.toList.take (size - 1))

/-- Lines 172-175: the path of the backing file of slot `i`. -/
def pad_path (i : Nat) : String :=
  snprintf 256 ("/data/data/app.gamenative/files/imagefs/tmp/gamepad"
    ++ (if i = 0 then "" else String.singleton (Char.ofNat (48 + i))) ++ ".mem")

/-- Lines 196-198: the name of the virtual device of slot `i`. -/
def pad_name (i : Nat) : String :=
  snprintf 64 ((if i < 2 then "B (Player " else "A (Player ") ++ toString (i + 1) ++ ")")

/-- Lines 190-198: the descriptor handed to `SDL_JoystickAttachVirtualEx` for slot `i`. -/
def pad_desc (i : Nat) : VirtualJoystickDesc :=
  { naxes := 6, nbuttons := 15, nhats := 1, name := pad_name i, userdata := (i : Int) }

/-! ## Bootstrap -/

/-- What the process environment, the dynamic linker, the C library and the backend
answer while the constructor runs. -/
structure Env where
  EVSHIM_DEBUG : Option String
  EVSHIM_MAX_PLAYERS : Option String
  dlopen_ok : Bool
  dlsym : Symbols
  SDL_Init_ret : Int
  real_open : Option String → Nat → Nat → Int
  attach : VirtualJoystickDesc → Int

/-- The state of the constructor after some code ran: the file-scope variables, the
calls made and whether it ended in a call through a `NULL` pointer. -/
structure Boot where
  g : Globals
  trace : List Event
  crashed : Bool
  deriving DecidableEq, Repr

/-- The C `GETFUNCPTR(name)`: one `dlsym`, and an error line when it returned `NULL`. -/
def GETFUNCPTR (name : String) (ok : Bool) : List Event :=
  Event.dlsym name ok :: (if ok then [] else LOGE "Failed to load SDL symbol, %s\n")

/-- Lines 154-158: the ten `GETFUNCPTR` lines. -/
def load_symbols (s : Symbols) : List Event :=
  GETFUNCPTR "SDL_Init" s.SDL_Init ++ GETFUNCPTR "SDL_GetError" s.SDL_GetError
    ++ GETFUNCPTR "SDL_JoystickOpen" s.SDL_JoystickOpen
    ++ GETFUNCPTR "SDL_JoystickAttachVirtualEx" s.SDL_JoystickAttachVirtualEx
    ++ GETFUNCPTR "SDL_JoystickSetVirtualAxis" s.SDL_JoystickSetVirtualAxis
    ++ GETFUNCPTR "SDL_JoystickSetVirtualButton" s.SDL_JoystickSetVirtualButton
    ++ GETFUNCPTR "SDL_JoystickSetVirtualHat" s.SDL_JoystickSetVirtualHat
    ++ GETFUNCPTR "SDL_PumpEvents" s.SDL_PumpEvents
    ++ GETFUNCPTR "SDL_Delay" s.SDL_Delay ++ GETFUNCPTR "SDL_GetVersion" s.SDL_GetVersion

/-- The body of the per-player loop (lines 172-211) for index `i`. -/
def setup_slot (env : Env) (s : Boot) (i : Nat) : Boot :=
  if s.crashed then s
  else
    let path := pad_path i
    let r := «open» env.real_open (some path) O_RDONLY 0
    let w := «open» env.real_open (some path) O_WRONLY 0
    let g1 : Globals :=
      { s.g with read_fd := aset s.g.read_fd i r.ret, rumble_fd := aset s.g.rumble_fd i w.ret }
    let t1 := s.trace ++ r.trace ++ w.trace
    if r.ret < 0 ∨ w.ret < 0 then
      ⟨{ g1 with read_fd := aset g1.read_fd i (-1), rumble_fd := aset g1.rumble_fd i (-1) },
        t1 ++ LOGE "P%d: failed to open shared file '%s': %s\n"
          ++ (if r.ret ≥ 0 then [Event.close r.ret] else [])
          ++ (if w.ret ≥ 0 then [Event.close w.ret] else []),
        false⟩
    else if s.g.p.SDL_JoystickAttachVirtualEx = false then ⟨g1, t1, true⟩
    else
      let id := env.attach (pad_desc i)
      let g2 : Globals := { g1 with vjoy_ids := aset g1.vjoy_ids i id }
      let t2 := t1 ++ [Event.SDL_JoystickAttachVirtualEx (pad_desc i) id]
      if id < 0 then
        if s.g.p.SDL_GetError = false then ⟨g2, t2, true⟩
        else
          ⟨{ g2 with read_fd := aset g2.read_fd i (-1), rumble_fd := aset g2.rumble_fd i (-1) },
            t2 ++ [Event.SDL_GetError] ++ LOGE "P%d: SDL attach failed: %s\n"
              ++ [Event.close r.ret, Event.close w.ret],
            false⟩
      else
        ⟨g2,
          t2 ++ LOGD s.g.g_debug_enabled "P%d: virtual joystick id=%d ready\n"
            ++ [Event.pthread_create ThreadEntry.vjoy_updater (i : Int), Event.pthread_detach],
          false⟩

/-- The loop `for (int i = ...; i < players; ++i)` with `n` turns left, at index `i`. -/
def per_player_setup (env : Env) : Nat → Nat → Boot → Boot
  | 0, _, s => s
  | n + 1, i, s => per_player_setup env n (i + 1) (setup_slot env s i)

/-- The constructor `initialize_all_pads`, run on the file-scope variables as the
loader left them. -/
def initialize_all_pads (env : Env) : Boot :=
  let g0 : Globals := { Globals.init with g_debug_enabled := debug_enabled env.EVSHIM_DEBUG }
  let t0 := LOGI "EVSHIM initializing…\n" ++ [Event.dlopen "libSDL2-2.0.so.0" env.dlopen_ok]
  if env.dlopen_ok = false then ⟨g0, t0 ++ LOGE "dlopen SDL failed: %s\n", false⟩
  else
    let g1 : Globals := { g0 with handle := true, p := env.dlsym }
    let t1 := t0 ++ load_symbols env.dlsym
    if g1.p.SDL_Init = false then ⟨g1, t1, true⟩
    else if g1.p.SDL_GetVersion = false then ⟨g1, t1 ++ [Event.SDL_Init], true⟩
    else
      per_player_setup env (configured_players env.EVSHIM_MAX_PLAYERS).toNat 0
        ⟨g1, t1 ++ [Event.SDL_Init, Event.SDL_GetVersion] ++ LOGI "SDL %d.%d.%d bound\n", false⟩

/-! ## Observations on traces -/

/-- Whether the call publishes a value to the virtual device. -/
def is_publish : Event → Bool
  | Event.SDL_JoystickSetVirtualAxis _ _ => true
  | Event.SDL_JoystickSetVirtualButton _ _ => true
  | Event.SDL_JoystickSetVirtualHat _ _ => true
  | _ => false

/-- The publish calls of a trace, in order. -/
def publish_calls (t : List Event) : List Event := t.filter is_publish

/-- The 22 publish calls for the record held in `m`: axes 0..5 from the six `int16_t`
at offsets 0..10, buttons 0..14 from the bytes at offsets 12..26, hat 0 from the byte
at offset 27. -/
def full_publish (m : List Nat) : List Event :=
  [Event.SDL_JoystickSetVirtualAxis 0 (i16_at m 0), Event.SDL_JoystickSetVirtualAxis 1 (i16_at m 2),
   Event.SDL_JoystickSetVirtualAxis 2 (i16_at m 4), Event.SDL_JoystickSetVirtualAxis 3 (i16_at m 6),
   Event.SDL_JoystickSetVirtualAxis 4 (i16_at m 8), Event.SDL_JoystickSetVirtualAxis 5 (i16_at m 10)]
  ++ (List.range 15).map (fun i => Event.SDL_JoystickSetVirtualButton i (byte_at m (12 + i)))
  ++ [Event.SDL_JoystickSetVirtualHat 0 (byte_at m 27)]

/-- Whether the call attached a virtual device for slot `i` (the backend returned a
non-negative identifier). -/
def is_attached (i : Nat) : Event → Bool
  | Event.SDL_JoystickAttachVirtualEx d ret => decide (d.userdata = (i : Int)) && decide (0 ≤ ret)
  | _ => false

/-- Whether the run attached a virtual device for slot `i`. -/
def device_attached (t : List Event) (i : Nat) : Bool := t.any (is_attached i)

/-- Whether the call starts the poller thread of slot `i`. -/
def is_poller_spawn (i : Nat) : Event → Bool
  | Event.pthread_create ThreadEntry.vjoy_updater arg => decide (arg = (i : Int))
  | _ => false

/-- Whether the run started the poller thread of slot `i`. -/
def poller_spawned (t : List Event) (i : Nat) : Bool := t.any (is_poller_spawn i)

/-- Whether the call attached a virtual device. -/
def is_attach_ok : Event → Bool
  | Event.SDL_JoystickAttachVirtualEx _ ret => decide (0 ≤ ret)
  | _ => false

/-- The number of virtual devices the run attached. -/
def attached_count (t : List Event) : Nat := t.countP is_attach_ok

/-- Whether the call starts a thread with start routine `start`. -/
def is_thread_spawn (start : ThreadEntry) : Event → Bool
  | Event.pthread_create s _ => decide (s = start)
  | _ => false

/-- The number of threads the run started with start routine `start`. -/
def spawn_count (start : ThreadEntry) (t : List Event) : Nat :=
  t.countP (is_thread_spawn start)

/-- Calls that belong to the per-slot setup: opening or closing a file, attaching a
device, starting a thread. -/
def is_slot_effect : Event → Bool
  | Event.open_call _ _ _ _ => true
  | Event.close _ => true
  | Event.SDL_JoystickAttachVirtualEx _ _ => true
  | Event.pthread_create _ _ => true
  | Event.pthread_detach => true
  | _ => false

/-- The outcomes of slot `i`: both opens of its backing file and the attach of its
virtual device succeed. -/
def slot_ok (env : Env) (i : Nat) : Bool :=
  decide (0 ≤ env.real_open (some (pad_path i)) O_RDONLY 0)
    && decide (0 ≤ env.real_open (some (pad_path i)) O_WRONLY 0)
    && decide (0 ≤ env.attach (pad_desc i))

/-- The events of the loop turn for slot `i` when the entry points are resolved. -/
def slot_events (env : Env) (dbg : Bool) (i : Nat) : List Event :=
  (setup_slot env
    ⟨{ Globals.init with g_debug_enabled := dbg, p := Symbols.all }, [], false⟩ i).trace

/-- The events of `n` loop turns from index `i` on when the entry points are resolved. -/
def loop_events (env : Env) (dbg : Bool) : Nat → Nat → List Event
  | 0, _ => []
  | n + 1, i => slot_events env dbg i ++ loop_events env dbg n (i + 1)

/-- The events of lines 149-163 when the library loads and `SDL_Init`, `SDL_GetVersion`
are resolved. -/
def boot_prelude (env : Env) : List Event :=
  LOGI "EVSHIM initializing…\n" ++ [Event.dlopen "libSDL2-2.0.so.0" env.dlopen_ok]
    ++ load_symbols env.dlsym ++ [Event.SDL_Init, Event.SDL_GetVersion]
    ++ LOGI "SDL %d.%d.%d bound\n"

/-- What the events of one loop turn for slot `i` amount to. -/
structure SlotEvents (env : Env) (i : Nat) (ev : List Event) : Prop where
  attached : ∀ j, ev.any (is_attached j) = (decide (i = j) && slot_ok env i)
  spawned : ∀ j, ev.any (is_poller_spawn j) = (decide (i = j) && slot_ok env i)
  attach_count : ev.countP is_attach_ok = if slot_ok env i then 1 else 0
  poller_count : ev.countP (is_thread_spawn ThreadEntry.vjoy_updater)
    = if slot_ok env i then 1 else 0
  pump_count : ev.countP (is_thread_spawn ThreadEntry.event_pump_thread) = 0

/-- The external producer rewriting the backing file `path`. -/
def producer_write (k : Kernel) (path : String) (content : List Nat) : Kernel :=
  { k with files := Function.update k.files path content }

/-! ## Concrete runs -/

/-- A run with `EVSHIM_MAX_PLAYERS` unset (one player): the library loads, every entry
point resolves, the backing file opens as descriptors 3 and 4, the attach returns 0. -/
def env_one : Env :=
  { EVSHIM_DEBUG := none
    EVSHIM_MAX_PLAYERS := none
    dlopen_ok := true
    dlsym := Symbols.all
    SDL_Init_ret := 0
    real_open := fun _ flags _ => if flags = O_RDONLY then 3 else 4
    attach := fun _ => 0 }

/-- A run with `EVSHIM_MAX_PLAYERS=2` in which only the backing file of slot 0 exists. -/
def env_two : Env :=
  { EVSHIM_DEBUG := none
    EVSHIM_MAX_PLAYERS := some "2"
    dlopen_ok := true
    dlsym := Symbols.all
    SDL_Init_ret := 0
    real_open := fun path flags _ =>
      if path = some (pad_path 0) then (if flags = O_RDONLY then 3 else 4) else -1
    attach := fun _ => 0 }

/-- A run in which `SDL_Init` reports failure and everything else succeeds. -/
def env_init_fails : Env := { env_one with SDL_Init_ret := -1 }

/-- A run in which `SDL_Init` reports failure and the attach fails as well. -/
def env_init_attach_fail : Env := { env_one with SDL_Init_ret := -1, attach := fun _ => -1 }

/-- A run in which `dlopen` fails. -/
def env_no_backend : Env := { env_one with dlopen_ok := false, dlsym := Symbols.null }

/-- A process in which descriptor 0 is the terminal, opened read-only, and descriptors
3 and 4 are the read and write descriptors of the backing file of slot 0. -/
def kernel_one : Kernel :=
  { fdtab := fun fd =>
      if fd = 0 then some ⟨"/dev/pts/0", true, false, 0⟩
      else if fd = 3 then some ⟨pad_path 0, true, false, 0⟩
      else if fd = 4 then some ⟨pad_path 0, false, true, 0⟩
      else none
    files := fun _ => List.replicate 36 0 }

/-- The all-zero record. -/
def zero_record : List Nat := List.replicate 36 0

/-- The all-zero record with button 3 pressed (byte 15). -/
def record_button3 : List Nat := zero_record.set 15 1

/-- The all-zero record with `low_freq_rumble = 1` (byte 32). -/
def record_rumble : List Nat := zero_record.set 32 1

/-- The all-zero record with `lx = 1`. -/
def record_a : List Nat := zero_record.set 0 1

/-- The all-zero record with `lx = 2`. -/
def record_b : List Nat := zero_record.set 0 2

/-- A poller of slot 0 on descriptor 3 that has just entered its loop. -/
def poller_zero : Poller := ⟨0, 3, zero_record, zero_record⟩

/-- A process whose descriptor 3 reads the backing file of slot 0, which holds
`record_a`. -/
def kernel_poll : Kernel :=
  { fdtab := fun fd => if fd = 3 then some ⟨pad_path 0, true, false, 0⟩ else none
    files := fun path => if path = pad_path 0 then record_a else [] }

/-- The first turn of the poller loop on `kernel_poll`. -/
def poll_first : Kernel × PollResult := vjoy_updater_iter Symbols.all kernel_poll poller_zero

/-- The second turn, after the producer replaced the record by `record_b`. -/
def poll_second : Kernel × PollResult :=
  vjoy_updater_iter Symbols.all (producer_write poll_first.1 (pad_path 0) record_b)
    poll_first.2.poller

/-! ## The interposed `ioctl` -/

/-- What an interposed `ioctl` did: its return value, the value it stored to `errno`
itself, and the arguments of the call of the real `ioctl` it made, if any. -/
structure IoctlResult where
  ret : Int
  errno : Option Nat
  real_call : Option (Int × Int × Nat)
  deriving DecidableEq, Repr

/-- The interposed `ioctl(fd, req, ...)`: descriptors that resolve to an event node fail
with `ENOTTY`, every other descriptor goes to the real `ioctl` with the pointer
argument `arg` fetched from the variable arguments. -/
def ioctl (real_ioctl : Int → Int → Nat → Int) (k : Kernel) (fd : Int) (req : Int)
    (arg : Nat) : IoctlResult :=
  match resolve_fd k fd with
  | some path =>
      if is_event_node (some path) then ⟨-1, some ENOTTY, none⟩
      else ⟨real_ioctl fd req arg, none, some (fd, req, arg)⟩
  | none => ⟨real_ioctl fd req arg, none, some (fd, req, arg)⟩

/-! ## Layout of `struct gamepad_io` -/

/-- One member of a struct declaration: its name, the size of its element type (which
is also its alignment, for the integer types used here) and the number of elements. -/
structure Member where
  name : String
  size : Nat
  count : Nat
  deriving DecidableEq, Repr

/-- The declaration of `struct gamepad_io` (lines 31-38), member by member. -/
def gamepad_io_members : List Member :=
  [⟨"lx", 2, 1⟩, ⟨"ly", 2, 1⟩, ⟨"rx", 2, 1⟩, ⟨"ry", 2, 1⟩, ⟨"lt", 2, 1⟩, ⟨"rt", 2, 1⟩,
   ⟨"btn", 1, 15⟩, ⟨"hat", 1, 1⟩, ⟨"_padding", 1, 4⟩,
   ⟨"low_freq_rumble", 2, 1⟩, ⟨"high_freq_rumble", 2, 1⟩]

/-- The least multiple of the alignment `a` that is not below `off`. -/
def align_up (off a : Nat) : Nat := (off + a - 1) / a * a

/-- The C layout rule: each member is placed at the next offset, from `off` on, that
is a multiple of its alignment. The result lists, per member, its name, its offset and
the offset just past it. -/
def member_offsets : List Member → Nat → List (String × Nat × Nat)
  | [], _ => []
  | m :: ms, off =>
      (m.name, align_up off m.size, align_up off m.size + m.size * m.count)
        :: member_offsets ms (align_up off m.size + m.size * m.count)

/-- The size of a struct: the end of its last member, rounded up to the largest member
alignment. -/
def struct_sizeof (ms : List Member) : Nat :=
  align_up (((member_offsets ms 0).map (fun e => e.2.2)).foldl max 0)
    ((ms.map (fun m => m.size)).foldl max 1)

/-! ## More observations on bootstrap -/

/-- The state of the constructor when it enters the per-player loop. -/
def boot_state (env : Env) : Boot :=
  ⟨{ Globals.init with
      g_debug_enabled := debug_enabled env.EVSHIM_DEBUG, handle := true, p := env.dlsym },
    boot_prelude env, false⟩

/-- Whether the call opens the backing file of slot `i`. -/
def is_slot_open (i : Nat) : Event → Bool
  | Event.open_call path _ _ _ => decide (path = some (pad_path i))
  | _ => false

/-- Whether the run set up slot `i`, that is, tried to open its backing file. -/
def slot_set_up (t : List Event) (i : Nat) : Bool := t.any (is_slot_open i)

/-- Whether the call closes a descriptor. -/
def is_close : Event → Bool
  | Event.close _ => true
  | _ => false

/-- A run with one player in which `dlsym` does not find `SDL_JoystickAttachVirtualEx`
and finds every other entry point. -/
def env_attach_missing : Env :=
  { env_one with dlsym := { Symbols.all with SDL_JoystickAttachVirtualEx := false } }

/-- A path under the reserved prefix that is longer than the 63 bytes of the
resolution buffer. -/
def long_event_path : String :=
  "/dev/input/event0/a-very-long-tail-that-does-not-fit-the-resolution-buffer-of-the-hook"

/-- A process whose descriptor 5 is an input event node, descriptor 6 an event node
with a long path and descriptor 3 the backing file of slot 0. -/
def kernel_event : Kernel :=
  { fdtab := fun fd =>
      if fd = 5 then some ⟨"/dev/input/event3", true, false, 0⟩
      else if fd = 6 then some ⟨long_event_path, true, false, 0⟩
      else if fd = 3 then some ⟨pad_path 0, true, false, 0⟩
      else none
    files := fun _ => List.replicate 36 7 }

/-! ## Lock discipline on traces -/

/-- Whether the call takes or releases the shared lock or touches a backing file. -/
def is_lock_relevant : Event → Bool
  | Event.mutex_lock => true
  | Event.mutex_unlock => true
  | Event.read _ _ _ => true
  | Event.pwrite _ _ _ _ _ => true
  | _ => false

/-- Whether a trace, started with the lock held or not as `held` says, keeps the lock
discipline: no acquire while the lock is held, no release while it is not, every `read`
and `pwrite` while it is held, and the lock released at the end. -/
def lock_ok : Bool → List Event → Bool
  | held, [] => !held
  | held, Event.mutex_lock :: t => !held && lock_ok true t
  | held, Event.mutex_unlock :: t => held && lock_ok false t
  | held, Event.read _ _ _ :: t => held && lock_ok held t
  | held, Event.pwrite _ _ _ _ _ :: t => held && lock_ok held t
  | held, _ :: t => lock_ok held t

/-- A run with `EVSHIM_DEBUG` set to the empty string. -/
def env_debug_empty : Env := { env_one with EVSHIM_DEBUG := some "" }

/-- A run with `EVSHIM_MAX_PLAYERS=2` in which only the backing file of slot 1 exists. -/
def env_second_only : Env :=
  { env_two with
    real_open := fun path flags _ =>
      if path = some (pad_path 1) then (if flags = O_RDONLY then 3 else 4) else -1 }

/-- A run like `env_one` with `EVSHIM_MAX_PLAYERS` set to `value`. -/
def env_players (value : String) : Env := { env_one with EVSHIM_MAX_PLAYERS := some value }

/-! ## Lemmas: file writes -/

theorem write_at_head_length (c : List Nat) (off : Nat) :
    (c.take off ++ List.replicate (off - c.length) 0).length = off := by
  simp only [List.length_append, List.length_take, List.length_replicate]
  omega

theorem write_at_length (c : List Nat) (off : Nat) (buf : List Nat) :
    (write_at c off buf).length = max c.length (off + buf.length) := by
  unfold write_at
  simp only [List.length_append, List.length_take, List.length_replicate, List.length_drop]
  omega

theorem write_at_window (c : List Nat) (off : Nat) (buf : List Nat) :
    ((write_at c off buf).drop off).take buf.length = buf := by
  unfold write_at
  rw [List.append_assoc, List.drop_left' (write_at_head_length c off)]
  rw [List.take_left' rfl]

theorem write_at_before (c : List Nat) (off : Nat) (buf : List Nat) (j : Nat)
    (hj : j < off) (hc : j < c.length) : (write_at c off buf).get? j = c.get? j := by
  unfold write_at
  have h1 : j < (c.take off).length := by
    simp only [List.length_take]; omega
  simp only [List.get?_eq_getElem?]
  rw [List.append_assoc, List.append_assoc, List.getElem?_append_left h1]
  rw [List.getElem?_take]
  simp [hj]

theorem write_at_after (c : List Nat) (off : Nat) (buf : List Nat) (j : Nat)
    (hj : off + buf.length ≤ j) : (write_at c off buf).get? j = c.get? j := by
  unfold write_at
  have hlen : (c.take off ++ List.replicate (off - c.length) 0 ++ buf).length
      = off + buf.length := by
    rw [List.length_append, write_at_head_length]
  simp only [List.get?_eq_getElem?]
  rw [List.getElem?_append_right (by omega), hlen, List.getElem?_drop]
  congr 1
  omega

/-- A granted transfer of the whole buffer on a writable descriptor. -/
theorem sys_pwrite_full (k : Kernel) (accept : Int) (fd : Int) (buf : List Nat) (count off : Nat)
    (f : OpenFile) (hopen : k.fdtab fd = some f) (hw : f.writable = true)
    (hacc : (count : Int) ≤ accept) (hc : 0 < count) (hb : buf.length = count) :
    sys_pwrite k accept fd buf count off
      = ({ k with files := Function.update k.files f.path (write_at (k.files f.path) off buf) },
          (count : Int)) := by
  have hmin : min accept.toNat count = count := by
    apply Nat.min_eq_right
    omega
  have hna : ¬ accept < 0 := by omega
  have hne : count ≠ 0 := by omega
  have htake : buf.take count = buf := by
    rw [← hb]; exact List.take_length buf
  unfold sys_pwrite
  rw [hopen]
  simp only [hw, Bool.true_eq_false, if_false, if_neg hna, hmin, if_neg hne, htake]

/-- The guard of `OnRumble` lets a valid index with an open descriptor through. -/
theorem OnRumble_accepted (g : Globals) (k : Kernel) (accept : Int) (idx : Int) (low high : Nat)
    (h0 : 0 ≤ idx) (h1 : idx < 4) (hfd : 0 ≤ aget g.rumble_fd idx.toNat) :
    OnRumble g k accept idx low high =
      ⟨0,
        [Event.mutex_lock,
          Event.pwrite (aget g.rumble_fd idx.toNat) (u16_bytes low ++ u16_bytes high) 4 32
            (sys_pwrite k accept (aget g.rumble_fd idx.toNat)
              (u16_bytes low ++ u16_bytes high) 4 32).2,
          Event.mutex_unlock]
          ++ (if (sys_pwrite k accept (aget g.rumble_fd idx.toNat)
                (u16_bytes low ++ u16_bytes high) 4 32).2 ≠ 4
              then LOGE "Rumble write failed (P%d): %s\n" else [])
          ++ LOGD g.g_debug_enabled "Rumble P%d  low=%u  high=%u\n",
        (sys_pwrite k accept (aget g.rumble_fd idx.toNat)
          (u16_bytes low ++ u16_bytes high) 4 32).1⟩ := by
  have hg : ¬ (idx < 0 ∨ idx ≥ (MAX_GAMEPADS : Int) ∨ aget g.rumble_fd idx.toNat < 0) := by
    simp only [MAX_GAMEPADS]
    push_cast
    omega
  simp only [OnRumble, if_neg hg]

/-! ## Lemmas: record comparison and one poller turn -/

theorem memcmp_self (a : List Nat) (n : Nat) : memcmp a a n = 0 := by
  induction a generalizing n with
  | nil => cases n <;> simp [memcmp]
  | cons x xs ih => cases n <;> simp [memcmp, ih]

theorem memcmp_prefix (a x : List Nat) : memcmp (a ++ x) a a.length = 0 := by
  induction a with
  | nil => simp [memcmp]
  | cons y ys ih => simp [memcmp, ih]

theorem memcmp_eq_zero (n : Nat) (a b x : List Nat) (ha : a.length = n) (hb : b.length = n)
    (h : memcmp (a ++ x) b n = 0) : a = b := by
  induction n generalizing a b with
  | zero =>
      rw [List.length_eq_zero] at ha hb
      rw [ha, hb]
  | succ m ih =>
      cases a with
      | nil => simp at ha
      | cons y ys =>
          cases b with
          | nil => simp at hb
          | cons z zs =>
              simp only [List.cons_append, memcmp] at h
              by_cases hyz : y = z
              · rw [if_pos hyz] at h
                rw [hyz, ih ys zs (by simpa using ha) (by simpa using hb) h]
              · rw [if_neg hyz] at h
                exfalso
                apply hyz
                omega

theorem publish_calls_finish (p : Symbols) (st : Poller) (t : List Event) :
    publish_calls (poll_finish p st t).trace = publish_calls t := by
  unfold poll_finish publish_calls
  split <;> simp [List.filter_append, is_publish]

theorem poll_finish_poller (p : Symbols) (st : Poller) (t : List Event) :
    (poll_finish p st t).poller = st := by
  unfold poll_finish
  split <;> rfl

/-- A turn whose comparison finds no difference. -/
theorem poll_body_same (p : Symbols) (st : Poller) (n : Int) (data : List Nat)
    (h : memcmp (data ++ st.cur.drop data.length) st.last_state sizeof_gamepad_io = 0) :
    publish_calls (poll_body p st n data).trace = []
      ∧ (poll_body p st n data).poller.last_state = st.last_state := by
  have hc : ¬ (n = (sizeof_gamepad_io : Int)
      ∧ memcmp (data ++ st.cur.drop data.length) st.last_state sizeof_gamepad_io ≠ 0) := by
    intro hh
    exact hh.2 h
  simp only [poll_body, if_neg hc]
  split <;> simp only [publish_calls_finish, poll_finish_poller] <;>
    simp [publish_calls, is_publish, LOGE]

theorem publish_resolved (p : Symbols) (m : List Nat)
    (ha : p.SDL_JoystickSetVirtualAxis = true) (hb : p.SDL_JoystickSetVirtualButton = true)
    (hh : p.SDL_JoystickSetVirtualHat = true) :
    publish p (gamepad_io.of_bytes m) = (full_publish m, false) := by
  simp only [publish, ha, hb, hh, Bool.true_eq_false, if_false, full_publish, gamepad_io.of_bytes]
  rfl

theorem publish_calls_full (m : List Nat) : publish_calls (full_publish m) = full_publish m := by
  unfold publish_calls
  rw [List.filter_eq_self]
  intro e he
  simp only [full_publish, List.mem_append, List.mem_cons, List.mem_map, List.mem_singleton,
    List.not_mem_nil, or_false] at he
  rcases he with (h | ⟨i, _, h⟩) | h
  · rcases h with h | h | h | h | h | h <;> rw [h] <;> rfl
  · rw [← h]; rfl
  · rw [h]; rfl

/-- A turn that read a full record differing from the last-observed one. -/
theorem poll_body_differ (p : Symbols) (st : Poller) (data : List Nat)
    (hlen : data.length = sizeof_gamepad_io) (hcur : st.cur.length = sizeof_gamepad_io)
    (hlast : st.last_state.length = sizeof_gamepad_io) (hne : data ≠ st.last_state)
    (ha : p.SDL_JoystickSetVirtualAxis = true) (hb : p.SDL_JoystickSetVirtualButton = true)
    (hh : p.SDL_JoystickSetVirtualHat = true) :
    publish_calls (poll_body p st sizeof_gamepad_io data).trace = full_publish data
      ∧ (poll_body p st sizeof_gamepad_io data).poller.last_state = data := by
  have hdrop : st.cur.drop data.length = [] := by
    rw [List.drop_eq_nil_iff]; omega
  have hm : memcmp data st.last_state sizeof_gamepad_io ≠ 0 := by
    intro h0
    apply hne
    have := memcmp_eq_zero sizeof_gamepad_io data st.last_state [] hlen hlast (by simpa using h0)
    exact this
  simp only [poll_body, hdrop, List.append_nil, hm, ne_eq, not_false_eq_true, and_self, if_true,
    publish_resolved p data ha hb hh, Bool.false_eq_true, if_false, publish_calls_finish,
    poll_finish_poller]
  refine ⟨?_, trivial⟩
  unfold publish_calls
  rw [List.filter_append]
  simpa [is_publish, publish_calls] using publish_calls_full data

/-! ## Lemmas: bootstrap -/

theorem event_prefix_chars : "/dev/input/event".toList
    = ['/', 'd', 'e', 'v', '/', 'i', 'n', 'p', 'u', 't', '/', 'e', 'v', 'e', 'n', 't'] := by
  decide

theorem pad_path_head (i : Nat) : ∃ rest, (pad_path i).toList = '/' :: 'd' :: 'a' :: rest := by
  unfold pad_path snprintf
  exact ⟨_, rfl⟩

theorem pad_path_not_event_node (i : Nat) : is_event_node (some (pad_path i)) = false := by
  obtain ⟨rest, h⟩ := pad_path_head i
  simp only [is_event_node, h, event_prefix_chars]
  simp [strncmp]

theorem open_pad (env : Env) (i : Nat) (flags : Nat) :
    «open» env.real_open (some (pad_path i)) flags 0
      = ⟨env.real_open (some (pad_path i)) flags 0, none,
          [Event.open_call (some (pad_path i)) flags 0
            (env.real_open (some (pad_path i)) flags 0)]⟩ := by
  simp [«open», open_common, pad_path_not_event_node]

theorem pad_desc_userdata (i : Nat) : (pad_desc i).userdata = (i : Int) := rfl

theorem setup_slot_resolved (env : Env) (s : Boot) (i : Nat) (hc : s.crashed = false)
    (ha : s.g.p.SDL_JoystickAttachVirtualEx = true) (he : s.g.p.SDL_GetError = true) :
    (setup_slot env s i).crashed = false
      ∧ (setup_slot env s i).g.p = s.g.p
      ∧ (setup_slot env s i).g.g_debug_enabled = s.g.g_debug_enabled
      ∧ (setup_slot env s i).trace = s.trace ++ slot_events env s.g.g_debug_enabled i := by
  unfold slot_events setup_slot
  simp only [hc, Bool.false_eq_true, if_false, open_pad, ha, he, Bool.true_eq_false,
    Symbols.all, List.nil_append]
  split_ifs <;> simp only [List.append_assoc, and_self]

theorem slot_events_spec (env : Env) (dbg : Bool) (i : Nat) :
    SlotEvents env i (slot_events env dbg i) := by
  unfold slot_events setup_slot
  simp only [Bool.false_eq_true, if_false, open_pad, Bool.true_eq_false, Symbols.all,
    List.nil_append]
  by_cases hopen : env.real_open (some (pad_path i)) O_RDONLY 0 < 0
      ∨ env.real_open (some (pad_path i)) O_WRONLY 0 < 0
  · rw [if_pos hopen]
    have hok : slot_ok env i = false := by
      simp only [slot_ok]
      rcases hopen with h | h
      · simp [not_le.mpr h]
      · simp [not_le.mpr h]
    constructor <;> intros <;> simp only [hok, Bool.false_eq_true, if_false, Bool.and_false] <;>
      split_ifs <;> simp [LOGE, is_attached, is_poller_spawn, is_attach_ok, is_thread_spawn]
  · rw [if_neg hopen]
    have hr : 0 ≤ env.real_open (some (pad_path i)) O_RDONLY 0 := by
      by_contra h; exact hopen (Or.inl (not_le.mp h))
    have hw : 0 ≤ env.real_open (some (pad_path i)) O_WRONLY 0 := by
      by_contra h; exact hopen (Or.inr (not_le.mp h))
    by_cases hid : env.attach (pad_desc i) < 0
    · rw [if_pos hid]
      have hok : slot_ok env i = false := by
        simp [slot_ok, not_le.mpr hid]
      constructor <;> intros <;> simp only [hok, Bool.false_eq_true, if_false, Bool.and_false] <;>
        simp [LOGE, is_attached, is_poller_spawn, is_attach_ok, is_thread_spawn, not_le.mpr hid]
    · rw [if_neg hid]
      have hid0 : 0 ≤ env.attach (pad_desc i) := not_lt.mp hid
      have hok : slot_ok env i = true := by
        simp [slot_ok, hr, hw, hid0]
      constructor <;> intros <;> simp only [hok, if_true, Bool.and_true] <;>
        cases dbg <;>
        simp [LOGD, is_attached, is_poller_spawn, is_attach_ok, is_thread_spawn, hid0,
          pad_desc_userdata]

theorem per_player_setup_resolved (env : Env) (n i : Nat) (s : Boot) (hc : s.crashed = false)
    (ha : s.g.p.SDL_JoystickAttachVirtualEx = true) (he : s.g.p.SDL_GetError = true) :
    (per_player_setup env n i s).crashed = false
      ∧ (per_player_setup env n i s).trace
          = s.trace ++ loop_events env s.g.g_debug_enabled n i := by
  induction n generalizing i s with
  | zero => simp [per_player_setup, loop_events, hc]
  | succ m ih =>
      obtain ⟨h1, h2, h3, h4⟩ := setup_slot_resolved env s i hc ha he
      have := ih (i + 1) (setup_slot env s i) h1 (by rw [h2]; exact ha) (by rw [h2]; exact he)
      simp only [per_player_setup, loop_events, this, h3, h4, List.append_assoc, and_self]

theorem loop_events_attached (env : Env) (dbg : Bool) (n i j : Nat) :
    (loop_events env dbg n i).any (is_attached j)
      = (decide (i ≤ j ∧ j < i + n) && slot_ok env j) := by
  induction n generalizing i with
  | zero =>
      have : ¬ (i ≤ j ∧ j < i + 0) := by omega
      simp [loop_events, this]
  | succ m ih =>
      simp only [loop_events, List.any_append, (slot_events_spec env dbg i).attached, ih]
      by_cases hij : i = j
      · subst hij
        simp
      · have h1 : (i + 1 ≤ j ∧ j < i + 1 + m) ↔ (i ≤ j ∧ j < i + (m + 1)) := by omega
        simp [hij, h1]

theorem loop_events_spawned (env : Env) (dbg : Bool) (n i j : Nat) :
    (loop_events env dbg n i).any (is_poller_spawn j)
      = (decide (i ≤ j ∧ j < i + n) && slot_ok env j) := by
  induction n generalizing i with
  | zero =>
      have : ¬ (i ≤ j ∧ j < i + 0) := by omega
      simp [loop_events, this]
  | succ m ih =>
      simp only [loop_events, List.any_append, (slot_events_spec env dbg i).spawned, ih]
      by_cases hij : i = j
      · subst hij
        simp
      · have h1 : (i + 1 ≤ j ∧ j < i + 1 + m) ↔ (i ≤ j ∧ j < i + (m + 1)) := by omega
        simp [hij, h1]

theorem loop_events_attach_count (env : Env) (dbg : Bool) (n i : Nat) :
    (loop_events env dbg n i).countP is_attach_ok = (List.range' i n).countP (slot_ok env) := by
  induction n generalizing i with
  | zero => simp [loop_events]
  | succ m ih =>
      simp only [loop_events, List.countP_append, (slot_events_spec env dbg i).attach_count, ih,
        List.range'_succ, List.countP_cons]
      omega

theorem loop_events_poller_count (env : Env) (dbg : Bool) (n i : Nat) :
    (loop_events env dbg n i).countP (is_thread_spawn ThreadEntry.vjoy_updater)
      = (List.range' i n).countP (slot_ok env) := by
  induction n generalizing i with
  | zero => simp [loop_events]
  | succ m ih =>
      simp only [loop_events, List.countP_append, (slot_events_spec env dbg i).poller_count, ih,
        List.range'_succ, List.countP_cons]
      omega

theorem loop_events_pump_count (env : Env) (dbg : Bool) (n i : Nat) :
    (loop_events env dbg n i).countP (is_thread_spawn ThreadEntry.event_pump_thread) = 0 := by
  induction n generalizing i with
  | zero => simp [loop_events]
  | succ m ih =>
      simp only [loop_events, List.countP_append, (slot_events_spec env dbg i).pump_count, ih]

theorem GETFUNCPTR_quiet (name : String) (ok : Bool) :
    ∀ e ∈ GETFUNCPTR name ok, is_slot_effect e = false := by
  cases ok <;> simp [GETFUNCPTR, LOGE, is_slot_effect]

theorem boot_prelude_quiet (env : Env) : ∀ e ∈ boot_prelude env, is_slot_effect e = false := by
  intro e he
  simp only [boot_prelude, load_symbols, List.mem_append] at he
  rcases he with (((he | he) | he) | he) | he
  · simp [LOGI] at he; rw [he]; rfl
  · simp at he; rw [he]; rfl
  · rcases he with ((((((((he | he) | he) | he) | he) | he) | he) | he) | he) | he <;>
      exact GETFUNCPTR_quiet _ _ e he
  · simp at he; rcases he with he | he <;> rw [he] <;> rfl
  · simp [LOGI] at he; rw [he]; rfl

theorem initialize_all_pads_resolved (env : Env) (hload : env.dlopen_ok = true)
    (hinit : env.dlsym.SDL_Init = true) (hver : env.dlsym.SDL_GetVersion = true)
    (hatt : env.dlsym.SDL_JoystickAttachVirtualEx = true)
    (herr : env.dlsym.SDL_GetError = true) :
    (initialize_all_pads env).crashed = false
      ∧ (initialize_all_pads env).trace
          = boot_prelude env ++ loop_events env (debug_enabled env.EVSHIM_DEBUG)
              (configured_players env.EVSHIM_MAX_PLAYERS).toNat 0 := by
  unfold initialize_all_pads
  simp only [hload, Bool.true_eq_false, if_false, hinit, hver]
  have := per_player_setup_resolved env (configured_players env.EVSHIM_MAX_PLAYERS).toNat 0
    ⟨{ g_debug_enabled := debug_enabled env.EVSHIM_DEBUG, vjoy_ids := Globals.init.vjoy_ids,
       read_fd := Globals.init.read_fd, rumble_fd := Globals.init.rumble_fd, handle := true,
       p := env.dlsym },
     LOGI "EVSHIM initializing…\n" ++ [Event.dlopen "libSDL2-2.0.so.0" true]
      ++ load_symbols env.dlsym ++ [Event.SDL_Init, Event.SDL_GetVersion]
      ++ LOGI "SDL %d.%d.%d bound\n", false⟩ rfl hatt herr
  simp only [boot_prelude, hload]
  exact this

theorem is_attached_effect (j : Nat) (e : Event) (h : is_slot_effect e = false) :
    is_attached j e = false := by
  cases e <;> simp_all [is_attached, is_slot_effect]

theorem is_poller_spawn_effect (j : Nat) (e : Event) (h : is_slot_effect e = false) :
    is_poller_spawn j e = false := by
  cases e <;> simp_all [is_poller_spawn, is_slot_effect]

theorem is_attach_ok_effect (e : Event) (h : is_slot_effect e = false) :
    is_attach_ok e = false := by
  cases e <;> simp_all [is_attach_ok, is_slot_effect]

theorem is_thread_spawn_effect (start : ThreadEntry) (e : Event) (h : is_slot_effect e = false) :
    is_thread_spawn start e = false := by
  cases e <;> simp_all [is_thread_spawn, is_slot_effect]

theorem any_quiet (f : Event → Bool) (t : List Event)
    (hf : ∀ e, is_slot_effect e = false → f e = false)
    (ht : ∀ e ∈ t, is_slot_effect e = false) : t.any f = false := by
  rw [List.any_eq_false]
  intro e he
  simp [hf e (ht e he)]

theorem countP_quiet (f : Event → Bool) (t : List Event)
    (hf : ∀ e, is_slot_effect e = false → f e = false)
    (ht : ∀ e ∈ t, is_slot_effect e = false) : t.countP f = 0 := by
  rw [List.countP_eq_zero]
  intro e he
  simp [hf e (ht e he)]

/-! ## Lemmas: the interception predicate -/

theorem char_eq_of_toNat_eq (x y : Char) (h : x.toNat = y.toNat) : x = y := by
  rw [← Char.ofNat_toNat x, ← Char.ofNat_toNat y, h]

theorem strncmp_eq_zero_iff (b : List Char) (hb : ∀ c ∈ b, c.toNat ≠ 0) (a : List Char) :
    strncmp a b b.length = 0 ↔ b <+: a := by
  induction b generalizing a with
  | nil => simp [strncmp]
  | cons y ys ih =>
      have hy : y.toNat ≠ 0 := hb y (List.mem_cons_self _ _)
      have hys : ∀ c ∈ ys, c.toNat ≠ 0 := fun c hc => hb c (List.mem_cons_of_mem _ hc)
      cases a with
      | nil =>
          simp only [List.length_cons, strncmp, List.prefix_nil, neg_eq_zero]
          constructor
          · intro h
            exact absurd (by exact_mod_cast h) hy
          · intro h
            simp at h
      | cons x xs =>
          simp only [List.length_cons, strncmp, List.cons_prefix_cons]
          by_cases hxy : x = y
          · rw [if_pos hxy, ih hys xs]
            simp [hxy]
          · rw [if_neg hxy]
            constructor
            · intro h
              exfalso
              apply hxy
              apply char_eq_of_toNat_eq
              omega
            · intro h
              exact absurd h.1.symm hxy

theorem event_prefix_no_nul : ∀ c ∈ "/dev/input/event".toList, c.toNat ≠ 0 := by
  decide

theorem is_event_node_iff (s : String) :
    is_event_node (some s) = true ↔ "/dev/input/event".toList <+: s.toList := by
  have h := strncmp_eq_zero_iff "/dev/input/event".toList event_prefix_no_nul s.toList
  have hl : "/dev/input/event".toList.length = 16 := by decide
  rw [hl] at h
  simp only [is_event_node, beq_iff_eq]
  exact h

theorem head_of_take (b l : List Char) (n : Nat) (hn : b.length ≤ n) (h : b <+: l) :
    b <+: l.take n := by
  rw [List.prefix_iff_eq_take] at h ⊢
  rw [List.take_take, Nat.min_eq_left hn]
  exact h

theorem resolve_fd_event (k : Kernel) (fd : Int) (f : OpenFile) (hopen : k.fdtab fd = some f)
    (hp : "/dev/input/event".toList <+: f.path.toList) :
    ∃ path, resolve_fd k fd = some path ∧ is_event_node (some path) = true := by
  have hlen : f.path.length ≠ 0 := by
    have := hp.length_le
    have h16 : "/dev/input/event".toList.length = 16 := by decide
    rw [h16] at this
    show f.path.toList.length ≠ 0
    omega
  refine ⟨String.mk (f.path.toList.take 63), ?_, ?_⟩
  · simp [resolve_fd, hopen, hlen]
  · rw [is_event_node_iff]
    exact head_of_take _ _ 63 (by decide) hp

/-! ## Lemmas: backing-file paths and the slots bootstrap sets up -/

theorem toNat_ofNat_digit (n m : Nat) (hm : m ≠ 0) (h : (Char.ofNat n).toNat = m) : n = m := by
  unfold Char.ofNat at h
  split at h
  · rename_i hv
    simpa [Char.ofNatAux, Char.toNat] using h
  · exfalso
    apply hm
    rw [← h]
    rfl

theorem pad_path_chars (i : Nat) :
    (pad_path i).toList
      = "/data/data/app.gamenative/files/imagefs/tmp/gamepad".toList
          ++ (if i = 0 then [] else [Char.ofNat (48 + i)]) ++ ".mem".toList := by
  unfold pad_path snprintf
  by_cases hi : i = 0
  · subst hi
    decide
  · simp only [hi, if_false]
    show List.take 255 (("/data/data/app.gamenative/files/imagefs/tmp/gamepad"
      ++ String.singleton (Char.ofNat (48 + i)) ++ ".mem").toList) = _
    rw [List.take_of_length_le]
    · simp [String.toList, String.singleton]
    · simp [String.toList, String.singleton]

theorem pad_path_inj (i j : Nat) (hi : i < 4) (h : pad_path i = pad_path j) : i = j := by
  have h1 := congrArg String.toList h
  rw [pad_path_chars, pad_path_chars] at h1
  have h2 := List.append_cancel_left (List.append_cancel_right h1)
  by_cases hi0 : i = 0
  · by_cases hj0 : j = 0
    · omega
    · simp [hi0, hj0] at h2
  · by_cases hj0 : j = 0
    · simp [hi0, hj0] at h2
    · simp only [hi0, hj0, if_false, List.cons.injEq, and_true] at h2
      have h3 : (Char.ofNat (48 + j)).toNat = (Char.ofNat (48 + i)).toNat := by rw [h2]
      have h4 : (Char.ofNat (48 + i)).toNat = 48 + i := by
        interval_cases i <;> first | omega | rfl
      rw [h4] at h3
      have := toNat_ofNat_digit (48 + j) (48 + i) (by omega) h3
      omega

theorem is_slot_open_effect (j : Nat) (e : Event) (h : is_slot_effect e = false) :
    is_slot_open j e = false := by
  cases e <;> simp_all [is_slot_open, is_slot_effect]

theorem slot_events_opened (env : Env) (dbg : Bool) (i j : Nat) (hi : i < 4) :
    (slot_events env dbg i).any (is_slot_open j) = decide (i = j) := by
  have hinj : (pad_path i = pad_path j) ↔ i = j :=
    ⟨pad_path_inj i j hi, fun h => by rw [h]⟩
  unfold slot_events setup_slot
  simp only [Bool.false_eq_true, if_false, open_pad, Bool.true_eq_false, Symbols.all,
    List.nil_append]
  split_ifs <;> cases dbg <;> simp [LOGE, LOGD, is_slot_open, hinj]

theorem loop_events_opened (env : Env) (dbg : Bool) (n i j : Nat) (hn : i + n ≤ 4) :
    (loop_events env dbg n i).any (is_slot_open j) = decide (i ≤ j ∧ j < i + n) := by
  induction n generalizing i with
  | zero =>
      have : ¬ (i ≤ j ∧ j < i + 0) := by omega
      simp [loop_events, this]
  | succ m ih =>
      simp only [loop_events, List.any_append, slot_events_opened env dbg i j (by omega),
        ih (i + 1) (by omega)]
      by_cases hij : i = j
      · subst hij
        simp
      · have h1 : (i + 1 ≤ j ∧ j < i + 1 + m) ↔ (i ≤ j ∧ j < i + (m + 1)) := by omega
        simp [hij, h1]

theorem per_player_setup_foldl (env : Env) (n i : Nat) (s : Boot) :
    per_player_setup env n i s = (List.range' i n).foldl (setup_slot env) s := by
  induction n generalizing i s with
  | zero => rfl
  | succ m ih => simp [per_player_setup, List.range'_succ, ih]

theorem configured_players_le (v : Option String) : configured_players v ≤ 4 := by
  unfold configured_players
  simp only [MAX_GAMEPADS, Nat.cast_ofNat]
  split_ifs with h
  · exact le_refl _
  · exact not_lt.mp h

theorem configured_players_some (s : String) : configured_players (some s) = min (atoi s) 4 := by
  unfold configured_players
  simp only [MAX_GAMEPADS, Nat.cast_ofNat]
  split_ifs with h
  · rw [min_eq_right (le_of_lt h)]
  · rw [min_eq_left (not_lt.mp h)]

/-! ## Lemmas: the record after a rumble write -/

theorem byte_at_write_before (m vals : List Nat) (j : Nat) (hj : j < 32) (hm : j < m.length) :
    byte_at (write_at m 32 vals) j = byte_at m j := by
  unfold byte_at
  rw [List.getD_eq_getElem?_getD, List.getD_eq_getElem?_getD, ← List.get?_eq_getElem?,
    ← List.get?_eq_getElem?, write_at_before m 32 vals j hj hm]

theorem byte_at_write_window (m vals : List Nat) (t : Nat) (ht : t < vals.length) :
    byte_at (write_at m 32 vals) (32 + t) = vals.getD t 0 := by
  unfold byte_at write_at
  have hlen : (m.take 32 ++ List.replicate (32 - m.length) 0).length = 32 :=
    write_at_head_length m 32
  rw [List.append_assoc, List.getD_append_right _ _ _ _ (by omega), hlen,
    List.getD_append _ _ _ _ (by omega)]
  congr 1
  omega

theorem u16_of_bytes (v : Nat) (hv : v < 65536) : v % 256 + 256 * (v / 256 % 256) = v := by
  omega

theorem of_bytes_write (m : List Nat) (low high : Nat) (hm : m.length = 36)
    (hlow : low < 65536) (hhigh : high < 65536) :
    gamepad_io.of_bytes (write_at m 32 (u16_bytes low ++ u16_bytes high))
      = { gamepad_io.of_bytes m with low_freq_rumble := low, high_freq_rumble := high } := by
  have hb : ∀ j, j < 32 →
      byte_at (write_at m 32 (u16_bytes low ++ u16_bytes high)) j = byte_at m j :=
    fun j hj => byte_at_write_before m _ j hj (by omega)
  have hw : ∀ t, t < 4 →
      byte_at (write_at m 32 (u16_bytes low ++ u16_bytes high)) (32 + t)
        = (u16_bytes low ++ u16_bytes high).getD t 0 :=
    fun t ht => byte_at_write_window m _ t (by simpa [u16_bytes] using ht)
  have h32 := hw 0 (by omega)
  have h33 := hw 1 (by omega)
  have h34 := hw 2 (by omega)
  have h35 := hw 3 (by omega)
  simp only [u16_bytes, List.cons_append, List.nil_append, List.getD_cons_zero,
    List.getD_cons_succ, Nat.add_zero] at h32 h33 h34 h35
  have hbtn : (List.range 15).map
        (fun i => byte_at (write_at m 32 (u16_bytes low ++ u16_bytes high)) (12 + i))
      = (List.range 15).map (fun i => byte_at m (12 + i)) := by
    apply List.map_congr_left
    intro i hi
    exact hb _ (by have := List.mem_range.mp hi; omega)
  have hpad : (List.range 4).map
        (fun i => byte_at (write_at m 32 (u16_bytes low ++ u16_bytes high)) (28 + i))
      = (List.range 4).map (fun i => byte_at m (28 + i)) := by
    apply List.map_congr_left
    intro i hi
    exact hb _ (by have := List.mem_range.mp hi; omega)
  simp only [gamepad_io.of_bytes, i16_at, u16_at, hbtn, hpad, hb 0 (by omega), hb 1 (by omega),
    hb 2 (by omega), hb 3 (by omega), hb 4 (by omega), hb 5 (by omega), hb 6 (by omega),
    hb 7 (by omega), hb 8 (by omega), hb 9 (by omega), hb 10 (by omega), hb 11 (by omega),
    hb 27 (by omega)]
  have e32 : byte_at (write_at m 32 (u16_bytes low ++ u16_bytes high)) 32 = low % 256 := h32
  have e33 : byte_at (write_at m 32 (u16_bytes low ++ u16_bytes high)) (32 + 1)
      = low / 256 % 256 := h33
  have e34 : byte_at (write_at m 32 (u16_bytes low ++ u16_bytes high)) 34 = high % 256 := h34
  have e35 : byte_at (write_at m 32 (u16_bytes low ++ u16_bytes high)) (34 + 1)
      = high / 256 % 256 := h35
  rw [e32, e33, e34, e35, u16_of_bytes low hlow, u16_of_bytes high hhigh]

/-! ## Lemmas: a poller turn whose read is not a full record -/

theorem poll_body_short (p : Symbols) (st : Poller) (n : Int) (data : List Nat)
    (hn : n ≠ (sizeof_gamepad_io : Int)) :
    poll_body p st n data
      = poll_finish p { st with cur := data ++ st.cur.drop data.length }
          ([Event.mutex_lock, Event.read st.fd sizeof_gamepad_io n]
            ++ (if n < 0 then LOGE "P%d: read error: %s\n" else [])) := by
  have hc : ¬ (n = (sizeof_gamepad_io : Int)
      ∧ memcmp (data ++ st.cur.drop data.length) st.last_state sizeof_gamepad_io ≠ 0) :=
    fun h => hn h.1
  simp only [poll_body, if_neg hc]
  split <;> simp

/-! ## Lemmas: lock discipline -/

theorem lock_ok_neutral (held : Bool) (mid t : List Event)
    (hm : ∀ e ∈ mid, is_lock_relevant e = false) :
    lock_ok held (mid ++ t) = lock_ok held t := by
  induction mid with
  | nil => rfl
  | cons e es ih =>
      have he : is_lock_relevant e = false := hm e (List.mem_cons_self _ _)
      have hes : ∀ x ∈ es, is_lock_relevant x = false :=
        fun x hx => hm x (List.mem_cons_of_mem _ hx)
      cases e <;> simp_all [lock_ok, is_lock_relevant]

theorem lock_ok_neutral_only (mid : List Event)
    (hm : ∀ e ∈ mid, is_lock_relevant e = false) : lock_ok false mid = true := by
  have := lock_ok_neutral false mid [] hm
  rw [List.append_nil] at this
  rw [this]
  rfl

theorem full_publish_neutral (m : List Nat) : ∀ e ∈ full_publish m, is_lock_relevant e = false := by
  intro e he
  have h := publish_calls_full m
  unfold publish_calls at h
  rw [List.filter_eq_self] at h
  have hp := h e he
  cases e <;> simp_all [is_publish, is_lock_relevant]

theorem lock_ok_turn (fd : Int) (count : Nat) (n : Int) (mid tail : List Event)
    (hm : ∀ e ∈ mid, is_lock_relevant e = false)
    (ht : ∀ e ∈ tail, is_lock_relevant e = false) :
    lock_ok false ([Event.mutex_lock, Event.read fd count n] ++ mid
      ++ (Event.mutex_unlock :: tail)) = true := by
  have hshape : [Event.mutex_lock, Event.read fd count n] ++ mid ++ (Event.mutex_unlock :: tail)
      = Event.mutex_lock :: Event.read fd count n :: (mid ++ (Event.mutex_unlock :: tail)) := by
    simp
  rw [hshape]
  simp only [lock_ok, Bool.not_false, Bool.true_and]
  rw [lock_ok_neutral true mid _ hm]
  simp only [lock_ok, Bool.true_and]
  exact lock_ok_neutral_only tail ht

theorem poll_finish_lock_ok (p : Symbols) (st : Poller) (fd : Int) (count : Nat) (n : Int)
    (mid : List Event) (hm : ∀ e ∈ mid, is_lock_relevant e = false) :
    lock_ok false (poll_finish p st ([Event.mutex_lock, Event.read fd count n] ++ mid)).trace
      = true := by
  unfold poll_finish
  split
  · exact lock_ok_turn fd count n mid [] hm (by simp)
  · exact lock_ok_turn fd count n mid [Event.SDL_Delay 5] hm (by simp [is_lock_relevant])

theorem poll_body_lock_ok (p : Symbols) (st : Poller) (n : Int) (data : List Nat)
    (ha : p.SDL_JoystickSetVirtualAxis = true) (hb : p.SDL_JoystickSetVirtualButton = true)
    (hh : p.SDL_JoystickSetVirtualHat = true) :
    lock_ok false (poll_body p st n data).trace = true := by
  unfold poll_body
  simp only [publish_resolved p _ ha hb hh, Bool.false_eq_true, if_false]
  split_ifs
  · exact poll_finish_lock_ok p _ _ _ _ _ (full_publish_neutral _)
  · exact poll_finish_lock_ok p _ _ _ _ _ (by simp [LOGE, is_lock_relevant])
  · have := poll_finish_lock_ok p { st with cur := data ++ st.cur.drop data.length } st.fd
      sizeof_gamepad_io n [] (by simp)
    simpa using this

/-! ## Lemmas: the slot arrays after bootstrap -/

theorem aget_aset (a : List Int) (i j : Nat) (v : Int) (hi : i < a.length) :
    aget (aset a i v) j = if i = j then v else aget a j := by
  unfold aget aset
  rw [List.getD_eq_getElem?_getD, List.getD_eq_getElem?_getD, List.getElem?_set]
  by_cases hij : i = j
  · subst hij
    simp [hi]
  · simp [hij]

theorem aset_length (a : List Int) (i : Nat) (v : Int) : (aset a i v).length = a.length := by
  unfold aset
  exact List.length_set _ _ _

theorem setup_slot_state (env : Env) (s : Boot) (i : Nat) (hc : s.crashed = false)
    (ha : s.g.p.SDL_JoystickAttachVirtualEx = true) (he : s.g.p.SDL_GetError = true)
    (hr : s.g.read_fd.length = 4) (hw : s.g.rumble_fd.length = 4)
    (hv : s.g.vjoy_ids.length = 4) (hi : i < 4) :
    ((setup_slot env s i).g.read_fd.length = 4
      ∧ (setup_slot env s i).g.rumble_fd.length = 4
      ∧ (setup_slot env s i).g.vjoy_ids.length = 4)
    ∧ (∀ j, aget (setup_slot env s i).g.read_fd j
        = if i = j then
            (if slot_ok env i = true then env.real_open (some (pad_path i)) O_RDONLY 0 else -1)
          else aget s.g.read_fd j)
    ∧ (∀ j, aget (setup_slot env s i).g.rumble_fd j
        = if i = j then
            (if slot_ok env i = true then env.real_open (some (pad_path i)) O_WRONLY 0 else -1)
          else aget s.g.rumble_fd j)
    ∧ (∀ j, aget (setup_slot env s i).g.vjoy_ids j
        = if i = j then
            (if 0 ≤ env.real_open (some (pad_path i)) O_RDONLY 0
                ∧ 0 ≤ env.real_open (some (pad_path i)) O_WRONLY 0
              then env.attach (pad_desc i) else aget s.g.vjoy_ids j)
          else aget s.g.vjoy_ids j) := by
  have hir : i < s.g.read_fd.length := by omega
  have hiw : i < s.g.rumble_fd.length := by omega
  have hiv : i < s.g.vjoy_ids.length := by omega
  unfold setup_slot
  simp only [hc, Bool.false_eq_true, if_false, open_pad, ha, he, Bool.true_eq_false]
  by_cases hopen : env.real_open (some (pad_path i)) O_RDONLY 0 < 0
      ∨ env.real_open (some (pad_path i)) O_WRONLY 0 < 0
  · rw [if_pos hopen]
    have hok : slot_ok env i = false := by
      simp only [slot_ok]
      rcases hopen with h | h
      · simp [not_le.mpr h]
      · simp [not_le.mpr h]
    have hno : ¬ (0 ≤ env.real_open (some (pad_path i)) O_RDONLY 0
        ∧ 0 ≤ env.real_open (some (pad_path i)) O_WRONLY 0) := by
      intro h
      rcases hopen with h1 | h1 <;> omega
    refine ⟨⟨by simp [aset_length, hr], by simp [aset_length, hw], hv⟩, ?_, ?_, ?_⟩
    · intro j
      rw [aget_aset _ _ _ _ (by rw [aset_length]; exact hir), aget_aset _ _ _ _ hir]
      by_cases hij : i = j
      · subst hij
        simp [hok]
      · simp [hij]
    · intro j
      rw [aget_aset _ _ _ _ (by rw [aset_length]; exact hiw), aget_aset _ _ _ _ hiw]
      by_cases hij : i = j
      · subst hij
        simp [hok]
      · simp [hij]
    · intro j
      by_cases hij : i = j
      · subst hij
        simp [hno]
      · simp [hij]
  · rw [if_neg hopen]
    have hrd : 0 ≤ env.real_open (some (pad_path i)) O_RDONLY 0 := by
      by_contra h; exact hopen (Or.inl (not_le.mp h))
    have hwr : 0 ≤ env.real_open (some (pad_path i)) O_WRONLY 0 := by
      by_contra h; exact hopen (Or.inr (not_le.mp h))
    by_cases hid : env.attach (pad_desc i) < 0
    · rw [if_pos hid]
      have hok : slot_ok env i = false := by
        simp [slot_ok, not_le.mpr hid]
      refine ⟨⟨by simp [aset_length, hr], by simp [aset_length, hw],
        by simp [aset_length, hv]⟩, ?_, ?_, ?_⟩
      · intro j
        rw [aget_aset _ _ _ _ (by rw [aset_length]; exact hir), aget_aset _ _ _ _ hir]
        by_cases hij : i = j
        · subst hij
          simp [hok]
        · simp [hij]
      · intro j
        rw [aget_aset _ _ _ _ (by rw [aset_length]; exact hiw), aget_aset _ _ _ _ hiw]
        by_cases hij : i = j
        · subst hij
          simp [hok]
        · simp [hij]
      · intro j
        rw [aget_aset _ _ _ _ hiv]
        by_cases hij : i = j
        · subst hij
          simp [hrd, hwr]
        · simp [hij]
    · rw [if_neg hid]
      have hid0 : 0 ≤ env.attach (pad_desc i) := not_lt.mp hid
      have hok : slot_ok env i = true := by
        simp [slot_ok, hrd, hwr, hid0]
      refine ⟨⟨by simp [aset_length, hr], by simp [aset_length, hw],
        by simp [aset_length, hv]⟩, ?_, ?_, ?_⟩
      · intro j
        rw [aget_aset _ _ _ _ hir]
        by_cases hij : i = j
        · subst hij
          simp [hok]
        · simp [hij]
      · intro j
        rw [aget_aset _ _ _ _ hiw]
        by_cases hij : i = j
        · subst hij
          simp [hok]
        · simp [hij]
      · intro j
        rw [aget_aset _ _ _ _ hiv]
        by_cases hij : i = j
        · subst hij
          simp [hrd, hwr]
        · simp [hij]

theorem per_player_setup_state (env : Env) (n i : Nat) (s : Boot) (hc : s.crashed = false)
    (ha : s.g.p.SDL_JoystickAttachVirtualEx = true) (he : s.g.p.SDL_GetError = true)
    (hr : s.g.read_fd.length = 4) (hw : s.g.rumble_fd.length = 4)
    (hv : s.g.vjoy_ids.length = 4) (hn : i + n ≤ 4) :
    (∀ j, aget (per_player_setup env n i s).g.read_fd j
        = if i ≤ j ∧ j < i + n then
            (if slot_ok env j = true then env.real_open (some (pad_path j)) O_RDONLY 0 else -1)
          else aget s.g.read_fd j)
    ∧ (∀ j, aget (per_player_setup env n i s).g.rumble_fd j
        = if i ≤ j ∧ j < i + n then
            (if slot_ok env j = true then env.real_open (some (pad_path j)) O_WRONLY 0 else -1)
          else aget s.g.rumble_fd j)
    ∧ (∀ j, aget (per_player_setup env n i s).g.vjoy_ids j
        = if i ≤ j ∧ j < i + n then
            (if 0 ≤ env.real_open (some (pad_path j)) O_RDONLY 0
                ∧ 0 ≤ env.real_open (some (pad_path j)) O_WRONLY 0
              then env.attach (pad_desc j) else aget s.g.vjoy_ids j)
          else aget s.g.vjoy_ids j) := by
  induction n generalizing i s with
  | zero =>
      have h0 : ∀ j, ¬ (i ≤ j ∧ j < i + 0) := fun j => by omega
      simp only [per_player_setup]
      refine ⟨?_, ?_, ?_⟩ <;> intro j <;> rw [if_neg (h0 j)]
  | succ m ih =>
      obtain ⟨h1, h2, _, _⟩ := setup_slot_resolved env s i hc ha he
      obtain ⟨⟨l1, l2, l3⟩, s1, s2, s3⟩ :=
        setup_slot_state env s i hc ha he hr hw hv (by omega)
      obtain ⟨r1, r2, r3⟩ := ih (i + 1) (setup_slot env s i) h1 (by rw [h2]; exact ha)
        (by rw [h2]; exact he) l1 l2 l3 (by omega)
      simp only [per_player_setup]
      refine ⟨?_, ?_, ?_⟩
      · intro j
        rw [r1 j, s1 j]
        by_cases hij : i = j
        · subst hij
          have e1 : ¬ (i + 1 ≤ i ∧ i < i + 1 + m) := by omega
          have e2 : i ≤ i ∧ i < i + (m + 1) := by omega
          simp [e1, e2]
        · by_cases hin : i + 1 ≤ j ∧ j < i + 1 + m
          · have e2 : i ≤ j ∧ j < i + (m + 1) := by omega
            simp [hin, e2]
          · have e2 : ¬ (i ≤ j ∧ j < i + (m + 1)) := by omega
            simp [hin, e2, hij]
      · intro j
        rw [r2 j, s2 j]
        by_cases hij : i = j
        · subst hij
          have e1 : ¬ (i + 1 ≤ i ∧ i < i + 1 + m) := by omega
          have e2 : i ≤ i ∧ i < i + (m + 1) := by omega
          simp [e1, e2]
        · by_cases hin : i + 1 ≤ j ∧ j < i + 1 + m
          · have e2 : i ≤ j ∧ j < i + (m + 1) := by omega
            simp [hin, e2]
          · have e2 : ¬ (i ≤ j ∧ j < i + (m + 1)) := by omega
            simp [hin, e2, hij]
      · intro j
        rw [r3 j, s3 j]
        by_cases hij : i = j
        · subst hij
          have e1 : ¬ (i + 1 ≤ i ∧ i < i + 1 + m) := by omega
          have e2 : i ≤ i ∧ i < i + (m + 1) := by omega
          simp [e1, e2]
        · by_cases hin : i + 1 ≤ j ∧ j < i + 1 + m
          · have e2 : i ≤ j ∧ j < i + (m + 1) := by omega
            simp [hin, e2, hij]
          · have e2 : ¬ (i ≤ j ∧ j < i + (m + 1)) := by omega
            simp [hin, e2, hij]

theorem initialize_all_pads_loop (env : Env) (hload : env.dlopen_ok = true)
    (hinit : env.dlsym.SDL_Init = true) (hver : env.dlsym.SDL_GetVersion = true) :
    initialize_all_pads env
      = per_player_setup env (configured_players env.EVSHIM_MAX_PLAYERS).toNat 0
          (boot_state env) := by
  unfold initialize_all_pads
  simp only [hload, Bool.true_eq_false, if_false, hinit, hver]
  simp [boot_state, boot_prelude, hload]

/-- The slot arrays after a bootstrap in which the backend loads and the entry points
bootstrap calls are resolved: the entries of a configured slot are decided by the
outcomes of that slot alone, the entries of the other slots keep their load-time
values. -/
theorem initialize_all_pads_state (env : Env) (hload : env.dlopen_ok = true)
    (hinit : env.dlsym.SDL_Init = true) (hver : env.dlsym.SDL_GetVersion = true)
    (hatt : env.dlsym.SDL_JoystickAttachVirtualEx = true)
    (herr : env.dlsym.SDL_GetError = true) :
    (∀ j, aget (initialize_all_pads env).g.read_fd j
        = if j < (configured_players env.EVSHIM_MAX_PLAYERS).toNat then
            (if slot_ok env j = true then env.real_open (some (pad_path j)) O_RDONLY 0 else -1)
          else aget array_init j)
    ∧ (∀ j, aget (initialize_all_pads env).g.rumble_fd j
        = if j < (configured_players env.EVSHIM_MAX_PLAYERS).toNat then
            (if slot_ok env j = true then env.real_open (some (pad_path j)) O_WRONLY 0 else -1)
          else aget array_init j)
    ∧ (∀ j, aget (initialize_all_pads env).g.vjoy_ids j
        = if j < (configured_players env.EVSHIM_MAX_PLAYERS).toNat then
            (if 0 ≤ env.real_open (some (pad_path j)) O_RDONLY 0
                ∧ 0 ≤ env.real_open (some (pad_path j)) O_WRONLY 0
              then env.attach (pad_desc j) else aget array_init j)
          else aget array_init j) := by
  have hle := configured_players_le env.EVSHIM_MAX_PLAYERS
  have hk : 0 + (configured_players env.EVSHIM_MAX_PLAYERS).toNat ≤ 4 := by omega
  rw [initialize_all_pads_loop env hload hinit hver]
  obtain ⟨r1, r2, r3⟩ := per_player_setup_state env
    (configured_players env.EVSHIM_MAX_PLAYERS).toNat 0 (boot_state env) rfl hatt herr
    rfl rfl rfl hk
  refine ⟨?_, ?_, ?_⟩
  · intro j
    rw [r1 j]
    simp [boot_state, Globals.init]
  · intro j
    rw [r2 j]
    simp [boot_state, Globals.init]
  · intro j
    rw [r3 j]
    simp [boot_state, Globals.init]

theorem initialize_all_pads_attached (env : Env) (hload : env.dlopen_ok = true)
    (hinit : env.dlsym.SDL_Init = true) (hver : env.dlsym.SDL_GetVersion = true)
    (hatt : env.dlsym.SDL_JoystickAttachVirtualEx = true)
    (herr : env.dlsym.SDL_GetError = true) (i : Nat) :
    device_attached (initialize_all_pads env).trace i
        = (decide (i < (configured_players env.EVSHIM_MAX_PLAYERS).toNat) && slot_ok env i)
      ∧ poller_spawned (initialize_all_pads env).trace i
        = (decide (i < (configured_players env.EVSHIM_MAX_PLAYERS).toNat) && slot_ok env i) := by
  obtain ⟨_, ht⟩ := initialize_all_pads_resolved env hload hinit hver hatt herr
  have hq := boot_prelude_quiet env
  constructor
  · rw [ht, device_attached, List.any_append,
      any_quiet _ _ (fun e => is_attached_effect i e) hq, loop_events_attached]
    simp
  · rw [ht, poller_spawned, List.any_append,
      any_quiet _ _ (fun e => is_poller_spawn_effect i e) hq, loop_events_spawned]
    simp

/-! ## Lemmas: `atoi` on decimal numerals -/

theorem digitChar_spec (d : Nat) (hd : d < 10) :
    isdigit (Nat.digitChar d) = true ∧ (Nat.digitChar d).toNat - 48 = d
      ∧ isspace (Nat.digitChar d) = false ∧ Nat.digitChar d ≠ '-' ∧ Nat.digitChar d ≠ '+' := by
  interval_cases d <;> decide

theorem digits_value_toDigitsCore (fuel : Nat) :
    ∀ (n : Nat) (ds : List Char), n < fuel →
      digits_value (Nat.toDigitsCore 10 fuel n ds) 0 = digits_value ds n := by
  induction fuel with
  | zero => intro n ds h; omega
  | succ f ih =>
      intro n ds h
      have hd := digitChar_spec (n % 10) (Nat.mod_lt _ (by decide))
      unfold Nat.toDigitsCore
      simp only
      by_cases h0 : n / 10 = 0
      · rw [if_pos h0]
        simp only [digits_value, hd.1, if_true, hd.2.1]
        congr 1
        omega
      · rw [if_neg h0, ih (n / 10) _ (by omega)]
        simp only [digits_value, hd.1, if_true, hd.2.1]
        congr 1
        omega

theorem toDigitsCore_head (fuel : Nat) :
    ∀ (n : Nat) (ds : List Char),
      ((∃ d rest, d < 10 ∧ ds = Nat.digitChar d :: rest) ∨ 0 < fuel) →
      ∃ d rest, d < 10 ∧ Nat.toDigitsCore 10 fuel n ds = Nat.digitChar d :: rest := by
  induction fuel with
  | zero =>
      intro n ds h
      rcases h with h | h
      · simpa [Nat.toDigitsCore] using h
      · omega
  | succ f ih =>
      intro n ds _
      unfold Nat.toDigitsCore
      simp only
      by_cases h0 : n / 10 = 0
      · rw [if_pos h0]
        exact ⟨n % 10, ds, Nat.mod_lt _ (by decide), rfl⟩
      · rw [if_neg h0]
        exact ih (n / 10) _ (Or.inl ⟨n % 10, ds, Nat.mod_lt _ (by decide), rfl⟩)

theorem repr_toList (n : Nat) : (Nat.repr n).toList = Nat.toDigitsCore 10 (n + 1) n [] := rfl

theorem strtol10_repr (n : Nat) (hn : n < 2 ^ 63) : strtol10 (Nat.repr n).toList = (n : Int) := by
  obtain ⟨d, rest, hd, hshape⟩ := toDigitsCore_head (n + 1) n [] (Or.inr (by omega))
  have hv : digits_value (Nat.repr n).toList 0 = n := by
    rw [repr_toList, digits_value_toDigitsCore (n + 1) n [] (by omega)]
    rfl
  have hs := digitChar_spec d hd
  rw [repr_toList] at hv ⊢
  rw [hshape] at hv ⊢
  unfold strtol10
  have hdrop : List.dropWhile isspace (Nat.digitChar d :: rest) = Nat.digitChar d :: rest := by
    simp [List.dropWhile, hs.2.2.1]
  rw [hdrop]
  split
  · rename_i r heq
    exact absurd (List.cons.inj heq).1 hs.2.2.2.1
  · rename_i r heq
    exact absurd (List.cons.inj heq).1 hs.2.2.2.2
  · rw [hv]
    have : (n : Int) ≤ 2 ^ 63 - 1 := by
      have : (n : Int) < 2 ^ 63 := by exact_mod_cast hn
      omega
    exact min_eq_right this

theorem strtol10_neg_repr (n : Nat) (hn : n ≤ 2 ^ 63) :
    strtol10 ("-" ++ Nat.repr n).toList = -(n : Int) := by
  have hv : digits_value (Nat.repr n).toList 0 = n := by
    rw [repr_toList, digits_value_toDigitsCore (n + 1) n [] (by omega)]
    rfl
  have hl : ("-" ++ Nat.repr n).toList = '-' :: (Nat.repr n).toList := by
    simp [String.toList]
  rw [hl]
  unfold strtol10
  have hdrop : List.dropWhile isspace ('-' :: (Nat.repr n).toList) = '-' :: (Nat.repr n).toList := by
    rw [List.dropWhile_cons]
    simp [isspace]
  rw [hdrop]
  simp only [hv]
  apply max_eq_right
  have : (n : Int) ≤ 2 ^ 63 := by exact_mod_cast hn
  omega

theorem to_int_of_range (v : Int) (h1 : -(2 : Int) ^ 31 ≤ v) (h2 : v < 2 ^ 31) : to_int v = v := by
  unfold to_int
  have : (v + 2 ^ 31) % 2 ^ 32 = v + 2 ^ 31 := Int.emod_eq_of_lt (by omega) (by omega)
  omega

/-- The function `atoi` gives the value of every decimal numeral in the range of `int`. -/
theorem atoi_toString (v : Int) (h1 : -(2 : Int) ^ 31 ≤ v) (h2 : v < 2 ^ 31) :
    atoi (toString v) = v := by
  unfold atoi
  cases v with
  | ofNat n =>
      have hn : n < 2 ^ 63 := by
        have : (n : Int) < 2 ^ 31 := h2
        have : n < 2 ^ 31 := by exact_mod_cast this
        omega
      show to_int (strtol10 (Nat.repr n).toList) = (n : Int)
      rw [strtol10_repr n hn]
      exact to_int_of_range _ h1 h2
  | negSucc n =>
      have hn : n + 1 ≤ 2 ^ 63 := by
        have : -(2 : Int) ^ 31 ≤ Int.negSucc n := h1
        have : (n : Int) + 1 ≤ 2 ^ 31 := by
          rw [Int.negSucc_eq] at this
          omega
        have : n + 1 ≤ 2 ^ 31 := by exact_mod_cast this
        omega
      show to_int (strtol10 ("-" ++ Nat.repr (n + 1)).toList) = Int.negSucc n
      rw [strtol10_neg_repr (n + 1) hn]
      rw [to_int_of_range]
      · rw [Int.negSucc_eq]
        push_cast
        rfl
      · rw [Int.negSucc_eq] at h1
        push_cast
        exact h1
      · rw [Int.negSucc_eq] at h2
        push_cast
        exact h2

/-- The function `atoi` gives 0 for a value that does not start with white space, a sign
or a digit. -/
theorem atoi_non_numeric (s : String)
    (h : ∀ c, s.toList.head? = some c →
      isspace c = false ∧ isdigit c = false ∧ c ≠ '-' ∧ c ≠ '+') :
    atoi s = 0 := by
  unfold atoi strtol10
  cases hs : s.toList with
  | nil => simp [digits_value, to_int]
  | cons c rest =>
      have hc := h c (by rw [hs]; rfl)
      have hdrop : List.dropWhile isspace (c :: rest) = c :: rest := by
        rw [List.dropWhile_cons]
        simp [hc.1]
      rw [hdrop]
      split
      · rename_i r heq
        exact absurd (List.cons.inj heq).1 hc.2.2.1
      · rename_i r heq
        exact absurd (List.cons.inj heq).1 hc.2.2.2
      · simp [digits_value, hc.2.1, to_int]

/-! ## The claims -/

/-- C1 (code defect): a rumble call for an index outside the configured range is not
rejected. After a bootstrap that configured one player, `rumble_fd[1]` still holds the
value 0 the array initializer left there, so `OnRumble` for index 1 passes the guard,
issues a `pwrite` on descriptor 0 and returns 0 where the claim asks for -1 and no
write. -/
theorem C1_rumble_unconfigured_index_accepted :
    configured_players env_one.EVSHIM_MAX_PLAYERS = 1
    ∧ (initialize_all_pads env_one).crashed = false
    ∧ (initialize_all_pads env_one).g.rumble_fd = [4, 0, 0, 0]
    ∧ (OnRumble (initialize_all_pads env_one).g kernel_one 4 1 7 9).ret = 0
    ∧ (OnRumble (initialize_all_pads env_one).g kernel_one 4 1 7 9).trace
        = [Event.mutex_lock, Event.pwrite 0 [7, 0, 9, 0] 4 32 (-1), Event.mutex_unlock,
           Event.dprintf 2 "Rumble write failed (P%d): %s\n"] := by
  decide

/-- C2: for a slot index in range whose write descriptor is open for writing, an
`OnRumble` call whose `pwrite` transfers all four bytes leaves bytes 32..35 of the file
behind that descriptor equal to the little-endian encoding of `low` followed by
`high`; every byte the file had outside that window is unchanged, the file only grows
to cover the window, and no other file is modified. -/
theorem C2_rumble_write_exact (g : Globals) (k : Kernel) (accept : Int) (idx : Int)
    (low high : Nat) (f : OpenFile) (h0 : 0 ≤ idx) (h1 : idx < 4)
    (hfd : 0 ≤ aget g.rumble_fd idx.toNat)
    (hopen : k.fdtab (aget g.rumble_fd idx.toNat) = some f) (hw : f.writable = true)
    (hacc : 4 ≤ accept) (hlow : low < 65536) (hhigh : high < 65536) :
    Event.pwrite (aget g.rumble_fd idx.toNat) [low % 256, low / 256, high % 256, high / 256]
        4 32 4 ∈ (OnRumble g k accept idx low high).trace
    ∧ (((OnRumble g k accept idx low high).kernel.files f.path).drop 32).take 4
        = [low % 256, low / 256, high % 256, high / 256]
    ∧ (∀ j, j < 32 → j < (k.files f.path).length →
        ((OnRumble g k accept idx low high).kernel.files f.path).get? j
          = (k.files f.path).get? j)
    ∧ (∀ j, 36 ≤ j →
        ((OnRumble g k accept idx low high).kernel.files f.path).get? j
          = (k.files f.path).get? j)
    ∧ ((OnRumble g k accept idx low high).kernel.files f.path).length
        = max (k.files f.path).length 36
    ∧ (∀ q, q ≠ f.path → (OnRumble g k accept idx low high).kernel.files q = k.files q) := by
  have hl : low / 256 % 256 = low / 256 := Nat.mod_eq_of_lt (by omega)
  have hh : high / 256 % 256 = high / 256 := Nat.mod_eq_of_lt (by omega)
  have hvals : u16_bytes low ++ u16_bytes high
      = [low % 256, low / 256, high % 256, high / 256] := by
    simp [u16_bytes, hl, hh]
  have hp := sys_pwrite_full k accept (aget g.rumble_fd idx.toNat)
    [low % 256, low / 256, high % 256, high / 256] 4 32 f hopen hw (by exact_mod_cast hacc)
    (by decide) rfl
  rw [OnRumble_accepted g k accept idx low high h0 h1 hfd, hvals, hp]
  refine ⟨by simp, ?_, ?_, ?_, ?_, ?_⟩
  · simpa using write_at_window (k.files f.path) 32 [low % 256, low / 256, high % 256, high / 256]
  · intro j hj hc
    simpa using write_at_before (k.files f.path) 32 _ j hj hc
  · intro j hj
    simpa using write_at_after (k.files f.path) 32 [low % 256, low / 256, high % 256, high / 256]
      j (by simpa using hj)
  · simpa using write_at_length (k.files f.path) 32 [low % 256, low / 256, high % 256, high / 256]
  · intro q hq
    simp [Function.update, hq]

/-- C2 at a concrete input: slot 0 after the one-player bootstrap, write descriptor 4,
intensities 7 and 9. -/
theorem C2_rumble_write_exact_witness :
    ((0 : Int) ≤ 0 ∧ (0 : Int) < 4
      ∧ 0 ≤ aget (initialize_all_pads env_one).g.rumble_fd (0 : Int).toNat
      ∧ kernel_one.fdtab (aget (initialize_all_pads env_one).g.rumble_fd (0 : Int).toNat)
          = some ⟨pad_path 0, false, true, 0⟩)
    ∧ (((OnRumble (initialize_all_pads env_one).g kernel_one 4 0 7 9).kernel.files
          (pad_path 0)).drop 32).take 4 = [7 % 256, 7 / 256, 9 % 256, 9 / 256] :=
  ⟨by decide,
    (C2_rumble_write_exact (initialize_all_pads env_one).g kernel_one 4 0 7 9
      ⟨pad_path 0, false, true, 0⟩ (by decide) (by decide) (by decide) (by decide) rfl
      (by decide) (by decide) (by decide)).2.1⟩

/-- C3: a poller turn that read a full record identical to the last-observed record
makes no publish call and leaves the last-observed record unchanged; and from any
poller state, a second turn that reads the same full record as the turn before it
makes no publish call, so the record is published at most once. -/
theorem C3_poll_idempotent (p : Symbols) (st : Poller) (data : List Nat)
    (hlen : data.length = sizeof_gamepad_io) (hsame : data = st.last_state) :
    (publish_calls (poll_body p st sizeof_gamepad_io data).trace = []
      ∧ (poll_body p st sizeof_gamepad_io data).poller.last_state = st.last_state)
    ∧ ∀ st0 : Poller, (poll_body p st0 sizeof_gamepad_io data).crashed = false →
        publish_calls
          (poll_body p (poll_body p st0 sizeof_gamepad_io data).poller sizeof_gamepad_io data).trace
          = [] := by
  constructor
  · apply poll_body_same
    rw [← hsame, ← hlen]
    exact memcmp_prefix data _
  · intro st0 hnc
    apply (poll_body_same p _ _ data _).1
    have hdrop : ∀ x : List Nat, (data ++ x).drop data.length = x := fun x => List.drop_left _ _
    unfold poll_body at hnc ⊢
    simp only at hnc ⊢
    split at hnc
    · rename_i hdiff
      rw [if_pos hdiff]
      split at hnc
      · simp at hnc
      · rename_i hpub
        rw [if_neg hpub]
        simp only [poll_finish_poller, hdrop]
        exact memcmp_self _ _
    · rename_i hdiff
      rw [if_neg hdiff]
      have hz : memcmp (data ++ st0.cur.drop data.length) st0.last_state sizeof_gamepad_io = 0 := by
        by_contra hne
        exact hdiff ⟨trivial, hne⟩
      split <;> simp only [poll_finish_poller, hdrop] <;> exact hz

/-- C3 at a concrete input: the all-zero record read by a poller whose last-observed
record is all zero. -/
theorem C3_poll_idempotent_witness :
    (zero_record.length = sizeof_gamepad_io ∧ zero_record = poller_zero.last_state)
    ∧ publish_calls (poll_body Symbols.all poller_zero sizeof_gamepad_io zero_record).trace = []
    ∧ (poll_body Symbols.all poller_zero sizeof_gamepad_io zero_record).poller.last_state
        = poller_zero.last_state :=
  ⟨⟨by decide, rfl⟩, (C3_poll_idempotent Symbols.all poller_zero zero_record (by decide) rfl).1⟩

/-- C4 as stated fails: the new record differs from the last-observed one in button 3
only, yet the turn makes all 22 publish calls, among them a set-axis call, the set-hat
call and the set-button call of button 4. -/
theorem C4_publish_only_changed_counterexample :
    (∀ j, j < 36 → j ≠ 15 → record_button3.getD j 0 = poller_zero.last_state.getD j 0)
    ∧ record_button3.getD 15 0 ≠ poller_zero.last_state.getD 15 0
    ∧ Event.SDL_JoystickSetVirtualAxis 0 0
        ∈ (poll_body Symbols.all poller_zero 36 record_button3).trace
    ∧ Event.SDL_JoystickSetVirtualHat 0 0
        ∈ (poll_body Symbols.all poller_zero 36 record_button3).trace
    ∧ Event.SDL_JoystickSetVirtualButton 4 0
        ∈ (poll_body Symbols.all poller_zero 36 record_button3).trace
    ∧ (publish_calls (poll_body Symbols.all poller_zero 36 record_button3).trace).length = 22 := by
  decide

/-- C4 (amended): when the newly read full record differs from the last-observed one
and the three setters are resolved, the turn makes the full set of 22 publish calls
(axes 0..5, buttons 0..14, hat 0) with the values of the new record, whichever fields
changed. -/
theorem C4_publish_all_on_change (p : Symbols) (st : Poller) (data : List Nat)
    (hlen : data.length = sizeof_gamepad_io) (hcur : st.cur.length = sizeof_gamepad_io)
    (hlast : st.last_state.length = sizeof_gamepad_io) (hne : data ≠ st.last_state)
    (ha : p.SDL_JoystickSetVirtualAxis = true) (hb : p.SDL_JoystickSetVirtualButton = true)
    (hh : p.SDL_JoystickSetVirtualHat = true) :
    publish_calls (poll_body p st sizeof_gamepad_io data).trace = full_publish data
      ∧ (full_publish data).length = 22 :=
  ⟨(poll_body_differ p st data hlen hcur hlast hne ha hb hh).1, by simp [full_publish]⟩

/-- C4 (amended) at a concrete input: button 3 pressed on an all-zero record. -/
theorem C4_publish_all_on_change_witness :
    (record_button3.length = sizeof_gamepad_io
      ∧ poller_zero.cur.length = sizeof_gamepad_io
      ∧ poller_zero.last_state.length = sizeof_gamepad_io
      ∧ record_button3 ≠ poller_zero.last_state)
    ∧ publish_calls (poll_body Symbols.all poller_zero sizeof_gamepad_io record_button3).trace
        = full_publish record_button3
    ∧ (full_publish record_button3).length = 22 :=
  ⟨by decide,
    C4_publish_all_on_change Symbols.all poller_zero record_button3 (by decide) (by decide)
      (by decide) (by decide) rfl rfl rfl⟩

/-- C5 as stated fails: the new record agrees with the last-observed one on every
input field and on the padding and differs in `low_freq_rumble` only, yet the turn
makes 22 publish calls and takes the new record as last-observed. -/
theorem C5_rumble_excluded_counterexample :
    record_rumble.take 32 = poller_zero.last_state.take 32
    ∧ u16_at record_rumble 32 ≠ u16_at poller_zero.last_state 32
    ∧ (publish_calls (poll_body Symbols.all poller_zero 36 record_rumble).trace).length = 22
    ∧ (poll_body Symbols.all poller_zero 36 record_rumble).poller.last_state = record_rumble := by
  decide

/-- C5 (amended): change detection compares all 36 bytes, the rumble fields included.
For two records that agree on bytes 0..31 (axes, buttons, hat, padding) but differ in
`low_freq_rumble` or `high_freq_rumble`, the poller treats the new record as changed:
it makes the 22 publish calls and the new record becomes the last-observed one. -/
theorem C5_rumble_fields_compared (p : Symbols) (st : Poller) (data : List Nat)
    (hlen : data.length = sizeof_gamepad_io) (hcur : st.cur.length = sizeof_gamepad_io)
    (hlast : st.last_state.length = sizeof_gamepad_io)
    (_hinputs : data.take 32 = st.last_state.take 32)
    (hrumble : u16_at data 32 ≠ u16_at st.last_state 32
      ∨ u16_at data 34 ≠ u16_at st.last_state 34)
    (ha : p.SDL_JoystickSetVirtualAxis = true) (hb : p.SDL_JoystickSetVirtualButton = true)
    (hh : p.SDL_JoystickSetVirtualHat = true) :
    publish_calls (poll_body p st sizeof_gamepad_io data).trace = full_publish data
      ∧ (poll_body p st sizeof_gamepad_io data).poller.last_state = data := by
  apply poll_body_differ p st data hlen hcur hlast _ ha hb hh
  intro heq
  rw [heq] at hrumble
  rcases hrumble with h | h <;> exact h rfl

/-- C5 (amended) at a concrete input: `low_freq_rumble` set to 1 on an all-zero
record. -/
theorem C5_rumble_fields_compared_witness :
    (record_rumble.length = sizeof_gamepad_io
      ∧ poller_zero.cur.length = sizeof_gamepad_io
      ∧ poller_zero.last_state.length = sizeof_gamepad_io
      ∧ record_rumble.take 32 = poller_zero.last_state.take 32
      ∧ (u16_at record_rumble 32 ≠ u16_at poller_zero.last_state 32
          ∨ u16_at record_rumble 34 ≠ u16_at poller_zero.last_state 34))
    ∧ publish_calls (poll_body Symbols.all poller_zero sizeof_gamepad_io record_rumble).trace
        = full_publish record_rumble
    ∧ (poll_body Symbols.all poller_zero sizeof_gamepad_io record_rumble).poller.last_state
        = record_rumble :=
  ⟨by decide,
    C5_rumble_fields_compared Symbols.all poller_zero record_rumble (by decide) (by decide)
      (by decide) (by decide) (by decide) rfl rfl rfl⟩

/-- C6 (code defect): the poller reads with `read`, which advances the file position
of the descriptor. On a backing file of record size the first turn reads the 36 bytes
at offset 0 and leaves the position at 36; after the producer rewrote the record, the
second turn reads at offset 36, gets 0 bytes, publishes nothing and keeps the stale
record as last-observed. -/
theorem C6_second_poll_reads_at_end_of_file :
    kernel_poll.files (pad_path 0) = record_a
    ∧ Event.read 3 36 36 ∈ poll_first.2.trace
    ∧ publish_calls poll_first.2.trace = full_publish record_a
    ∧ poll_first.2.poller.last_state = record_a
    ∧ (producer_write poll_first.1 (pad_path 0) record_b).files (pad_path 0) = record_b
    ∧ (producer_write poll_first.1 (pad_path 0) record_b).fdtab 3
        = some ⟨pad_path 0, true, false, 36⟩
    ∧ Event.read 3 36 0 ∈ poll_second.2.trace
    ∧ publish_calls poll_second.2.trace = []
    ∧ poll_second.2.poller.last_state = record_a
    ∧ record_a ≠ record_b := by
  decide

/-- C7: when the backend loads and the entry points bootstrap calls are resolved, slot
`i` ends bootstrap with its device attached and its poller thread started exactly when
`i` is below the configured player count and both of its own opens and its own attach
succeeded, whatever the outcomes of the other slots; a device is attached exactly when
the poller is started, and the numbers of attached devices and of poller threads both
equal the number of configured slots whose three outcomes succeeded. The slot arrays
say the same: a configured slot whose three outcomes succeeded ends bootstrap with the
descriptors its own opens returned and the identifier its own attach returned, all
non-negative; a configured slot with a failed outcome ends with both descriptor
entries -1; the entries of slots that are not configured keep their load-time values.
Two runs that agree on the three outcomes of slot `i` leave slot `i` in the same state,
however they differ on the other slots. A thread counts as started when
`pthread_create` is called for it; the source does not look at the result of that
call. -/
theorem C7_slot_isolation (env : Env) (hload : env.dlopen_ok = true)
    (hinit : env.dlsym.SDL_Init = true) (hver : env.dlsym.SDL_GetVersion = true)
    (hatt : env.dlsym.SDL_JoystickAttachVirtualEx = true)
    (herr : env.dlsym.SDL_GetError = true) :
    (initialize_all_pads env).crashed = false
    ∧ (∀ i : Nat,
        (device_attached (initialize_all_pads env).trace i = true
          ∧ poller_spawned (initialize_all_pads env).trace i = true)
        ↔ ((i : Int) < configured_players env.EVSHIM_MAX_PLAYERS
            ∧ 0 ≤ env.real_open (some (pad_path i)) O_RDONLY 0
            ∧ 0 ≤ env.real_open (some (pad_path i)) O_WRONLY 0
            ∧ 0 ≤ env.attach (pad_desc i)))
    ∧ (∀ i : Nat, device_attached (initialize_all_pads env).trace i
        = poller_spawned (initialize_all_pads env).trace i)
    ∧ attached_count (initialize_all_pads env).trace
        = (List.range (configured_players env.EVSHIM_MAX_PLAYERS).toNat).countP (slot_ok env)
    ∧ spawn_count ThreadEntry.vjoy_updater (initialize_all_pads env).trace
        = (List.range (configured_players env.EVSHIM_MAX_PLAYERS).toNat).countP (slot_ok env)
    ∧ (∀ i : Nat, (i : Int) < configured_players env.EVSHIM_MAX_PLAYERS →
        (0 ≤ env.real_open (some (pad_path i)) O_RDONLY 0
            ∧ 0 ≤ env.real_open (some (pad_path i)) O_WRONLY 0
            ∧ 0 ≤ env.attach (pad_desc i) →
          aget (initialize_all_pads env).g.read_fd i
              = env.real_open (some (pad_path i)) O_RDONLY 0
            ∧ aget (initialize_all_pads env).g.rumble_fd i
              = env.real_open (some (pad_path i)) O_WRONLY 0
            ∧ aget (initialize_all_pads env).g.vjoy_ids i = env.attach (pad_desc i)
            ∧ 0 ≤ aget (initialize_all_pads env).g.read_fd i
            ∧ 0 ≤ aget (initialize_all_pads env).g.rumble_fd i
            ∧ 0 ≤ aget (initialize_all_pads env).g.vjoy_ids i)
        ∧ (¬ (0 ≤ env.real_open (some (pad_path i)) O_RDONLY 0
              ∧ 0 ≤ env.real_open (some (pad_path i)) O_WRONLY 0
              ∧ 0 ≤ env.attach (pad_desc i)) →
          aget (initialize_all_pads env).g.read_fd i = -1
            ∧ aget (initialize_all_pads env).g.rumble_fd i = -1))
    ∧ (∀ i : Nat, ¬ (i : Int) < configured_players env.EVSHIM_MAX_PLAYERS →
        aget (initialize_all_pads env).g.read_fd i = aget Globals.init.read_fd i
          ∧ aget (initialize_all_pads env).g.rumble_fd i = aget Globals.init.rumble_fd i
          ∧ aget (initialize_all_pads env).g.vjoy_ids i = aget Globals.init.vjoy_ids i)
    ∧ (∀ env2 : Env, env2.dlopen_ok = true → env2.dlsym.SDL_Init = true →
        env2.dlsym.SDL_GetVersion = true → env2.dlsym.SDL_JoystickAttachVirtualEx = true →
        env2.dlsym.SDL_GetError = true →
        ∀ i : Nat, (i : Int) < configured_players env.EVSHIM_MAX_PLAYERS →
          (i : Int) < configured_players env2.EVSHIM_MAX_PLAYERS →
          env2.real_open (some (pad_path i)) O_RDONLY 0
            = env.real_open (some (pad_path i)) O_RDONLY 0 →
          env2.real_open (some (pad_path i)) O_WRONLY 0
            = env.real_open (some (pad_path i)) O_WRONLY 0 →
          env2.attach (pad_desc i) = env.attach (pad_desc i) →
          device_attached (initialize_all_pads env2).trace i
              = device_attached (initialize_all_pads env).trace i
            ∧ poller_spawned (initialize_all_pads env2).trace i
              = poller_spawned (initialize_all_pads env).trace i
            ∧ aget (initialize_all_pads env2).g.read_fd i
              = aget (initialize_all_pads env).g.read_fd i
            ∧ aget (initialize_all_pads env2).g.rumble_fd i
              = aget (initialize_all_pads env).g.rumble_fd i
            ∧ aget (initialize_all_pads env2).g.vjoy_ids i
              = aget (initialize_all_pads env).g.vjoy_ids i) := by
  obtain ⟨hc, ht⟩ := initialize_all_pads_resolved env hload hinit hver hatt herr
  have hq := boot_prelude_quiet env
  have hA := fun i => (initialize_all_pads_attached env hload hinit hver hatt herr i).1
  have hS := fun i => (initialize_all_pads_attached env hload hinit hver hatt herr i).2
  obtain ⟨g1, g2, g3⟩ := initialize_all_pads_state env hload hinit hver hatt herr
  refine ⟨hc, ?_, ?_, ?_, ?_, ?_, ?_, ?_⟩
  · intro i
    rw [hA, hS]
    simp only [and_self, Bool.and_eq_true, decide_eq_true_eq, slot_ok, Int.lt_toNat]
    tauto
  · intro i
    rw [hA, hS]
  · rw [ht, attached_count, List.countP_append,
      countP_quiet _ _ (fun e => is_attach_ok_effect e) hq, loop_events_attach_count,
      List.range_eq_range']
    simp
  · rw [ht, spawn_count, List.countP_append,
      countP_quiet _ _ (fun e => is_thread_spawn_effect _ e) hq, loop_events_poller_count,
      List.range_eq_range']
    simp
  · intro i hi
    have hik : i < (configured_players env.EVSHIM_MAX_PLAYERS).toNat := Int.lt_toNat.mpr hi
    rw [g1 i, g2 i, g3 i, if_pos hik, if_pos hik, if_pos hik]
    constructor
    · intro h
      have hok : slot_ok env i = true := by simp [slot_ok, h.1, h.2.1, h.2.2]
      rw [if_pos hok, if_pos hok, if_pos ⟨h.1, h.2.1⟩]
      exact ⟨rfl, rfl, rfl, h.1, h.2.1, h.2.2⟩
    · intro h
      have hok : ¬ slot_ok env i = true := by
        intro hs
        apply h
        simpa [slot_ok, and_assoc] using hs
      rw [if_neg hok, if_neg hok]
      exact ⟨rfl, rfl⟩
  · intro i hi
    have hik : ¬ i < (configured_players env.EVSHIM_MAX_PLAYERS).toNat :=
      fun h => hi (Int.lt_toNat.mp h)
    rw [g1 i, g2 i, g3 i, if_neg hik, if_neg hik, if_neg hik]
    exact ⟨rfl, rfl, rfl⟩
  · intro env2 hload2 hinit2 hver2 hatt2 herr2 i hi hi2 hrd hwr hid
    have hik : i < (configured_players env.EVSHIM_MAX_PLAYERS).toNat := Int.lt_toNat.mpr hi
    have hik2 : i < (configured_players env2.EVSHIM_MAX_PLAYERS).toNat := Int.lt_toNat.mpr hi2
    obtain ⟨a2, s2⟩ := initialize_all_pads_attached env2 hload2 hinit2 hver2 hatt2 herr2 i
    obtain ⟨k1, k2, k3⟩ := initialize_all_pads_state env2 hload2 hinit2 hver2 hatt2 herr2
    have hok : slot_ok env2 i = slot_ok env i := by
      simp only [slot_ok, hrd, hwr, hid]
    rw [a2, s2, hA, hS, k1 i, k2 i, k3 i, g1 i, g2 i, g3 i, if_pos hik, if_pos hik, if_pos hik,
      if_pos hik2, if_pos hik2, if_pos hik2, hok, hrd, hwr, hid]
    simp [hik, hik2]

/-- C7 at concrete inputs: two configured players of which only the backing file of
slot 0 can be opened. Exactly one device is attached and exactly one poller thread is
started; slot 0 ends with descriptors 3 and 4 and identifier 0, slot 1 with both
descriptor entries -1. In the mirrored run, where only the file of slot 1 can be
opened, slot 1 ends in the state slot 0 had. -/
theorem C7_slot_isolation_witness :
    (env_two.dlopen_ok = true ∧ env_two.dlsym.SDL_Init = true
      ∧ env_two.dlsym.SDL_GetVersion = true
      ∧ env_two.dlsym.SDL_JoystickAttachVirtualEx = true
      ∧ env_two.dlsym.SDL_GetError = true)
    ∧ configured_players env_two.EVSHIM_MAX_PLAYERS = 2
    ∧ (List.range (configured_players env_two.EVSHIM_MAX_PLAYERS).toNat).countP
        (slot_ok env_two) = 1
    ∧ attached_count (initialize_all_pads env_two).trace
        = (List.range (configured_players env_two.EVSHIM_MAX_PLAYERS).toNat).countP
            (slot_ok env_two)
    ∧ spawn_count ThreadEntry.vjoy_updater (initialize_all_pads env_two).trace
        = (List.range (configured_players env_two.EVSHIM_MAX_PLAYERS).toNat).countP
            (slot_ok env_two)
    ∧ (aget (initialize_all_pads env_two).g.read_fd 0 = 3
        ∧ aget (initialize_all_pads env_two).g.rumble_fd 0 = 4
        ∧ aget (initialize_all_pads env_two).g.vjoy_ids 0 = 0)
    ∧ (aget (initialize_all_pads env_two).g.read_fd 1 = -1
        ∧ aget (initialize_all_pads env_two).g.rumble_fd 1 = -1)
    ∧ (aget (initialize_all_pads env_second_only).g.read_fd 1 = 3
        ∧ aget (initialize_all_pads env_second_only).g.rumble_fd 1 = 4
        ∧ aget (initialize_all_pads env_second_only).g.vjoy_ids 1 = 0) :=
  ⟨by decide, by decide, by decide,
    (C7_slot_isolation env_two rfl rfl rfl rfl rfl).2.2.2.1,
    (C7_slot_isolation env_two rfl rfl rfl rfl rfl).2.2.2.2.1,
    by
      have h := ((C7_slot_isolation env_two rfl rfl rfl rfl rfl).2.2.2.2.2.1 0 (by decide)).1
        (by decide)
      exact ⟨h.1, h.2.1, h.2.2.1⟩,
    ((C7_slot_isolation env_two rfl rfl rfl rfl rfl).2.2.2.2.2.1 1 (by decide)).2 (by decide),
    by
      have h := ((C7_slot_isolation env_second_only rfl rfl rfl rfl rfl).2.2.2.2.2.1 1
        (by decide)).1 (by decide)
      exact ⟨h.1, h.2.1, h.2.2.1⟩⟩

/-- C8 (code defect): a configured slot whose opens failed is not left with the
unattached sentinel. With two configured players and the backing file of slot 1
missing, slot 1 ends bootstrap with both descriptor entries -1 but with
`vjoy_ids[1] = 0`, the value the array initializer left there, which is not
negative. -/
theorem C8_failed_slot_keeps_identifier_zero :
    configured_players env_two.EVSHIM_MAX_PLAYERS = 2
    ∧ env_two.real_open (some (pad_path 1)) O_RDONLY 0 < 0
    ∧ env_two.real_open (some (pad_path 1)) O_WRONLY 0 < 0
    ∧ (initialize_all_pads env_two).crashed = false
    ∧ aget (initialize_all_pads env_two).g.read_fd 1 = -1
    ∧ aget (initialize_all_pads env_two).g.rumble_fd 1 = -1
    ∧ aget (initialize_all_pads env_two).g.vjoy_ids 1 = 0
    ∧ ¬ aget (initialize_all_pads env_two).g.vjoy_ids 1 < 0 := by
  decide

/-- C9 (code defect): bootstrap never starts the event pump. In a run where the
backend loads and slot 0 attaches, one `vjoy_updater` thread is started and no
`event_pump_thread`. -/
theorem C9_event_pump_never_spawned :
    env_one.dlopen_ok = true
    ∧ (initialize_all_pads env_one).crashed = false
    ∧ device_attached (initialize_all_pads env_one).trace 0 = true
    ∧ spawn_count ThreadEntry.vjoy_updater (initialize_all_pads env_one).trace = 1
    ∧ spawn_count ThreadEntry.event_pump_thread (initialize_all_pads env_one).trace = 0 := by
  decide

/-- C10 as stated fails: when `SDL_Init` reports failure bootstrap goes on; the backing
file of slot 0 is opened, and where the attach succeeds a device is attached and a
poller thread started. The file is opened even when the attach fails as well. -/
theorem C10_init_failure_not_fatal_counterexample :
    env_init_fails.dlopen_ok = true ∧ env_init_fails.SDL_Init_ret < 0
    ∧ Event.open_call (some (pad_path 0)) O_RDONLY 0 3 ∈ (initialize_all_pads env_init_fails).trace
    ∧ attached_count (initialize_all_pads env_init_fails).trace = 1
    ∧ spawn_count ThreadEntry.vjoy_updater (initialize_all_pads env_init_fails).trace = 1
    ∧ env_init_attach_fail.SDL_Init_ret < 0
    ∧ Event.open_call (some (pad_path 0)) O_RDONLY 0 3
        ∈ (initialize_all_pads env_init_attach_fail).trace := by
  decide

/-- C10 (amended): if loading the backend library fails, bootstrap stops after logging:
no file is opened or closed, no virtual device is attached, no thread is started, and
the slot arrays keep their load-time values. -/
theorem C10_dlopen_failure_is_fatal (env : Env) (hload : env.dlopen_ok = false) :
    (initialize_all_pads env).trace
        = [Event.dprintf STDOUT_FILENO "EVSHIM initializing…\n",
           Event.dlopen "libSDL2-2.0.so.0" false,
           Event.dprintf STDERR_FILENO "dlopen SDL failed: %s\n"]
      ∧ (∀ e ∈ (initialize_all_pads env).trace, is_slot_effect e = false)
      ∧ attached_count (initialize_all_pads env).trace = 0
      ∧ (∀ start, spawn_count start (initialize_all_pads env).trace = 0)
      ∧ (initialize_all_pads env).g.read_fd = Globals.init.read_fd
      ∧ (initialize_all_pads env).g.rumble_fd = Globals.init.rumble_fd
      ∧ (initialize_all_pads env).g.vjoy_ids = Globals.init.vjoy_ids := by
  simp [initialize_all_pads, hload, LOGI, LOGE, is_slot_effect, attached_count, spawn_count,
    is_attach_ok, is_thread_spawn]

/-- C10 (amended) at a concrete input: a run in which `dlopen` fails. -/
theorem C10_dlopen_failure_is_fatal_witness :
    env_no_backend.dlopen_ok = false
    ∧ attached_count (initialize_all_pads env_no_backend).trace = 0
    ∧ (∀ start, spawn_count start (initialize_all_pads env_no_backend).trace = 0) :=
  ⟨rfl, (C10_dlopen_failure_is_fatal env_no_backend rfl).2.2.1,
    (C10_dlopen_failure_is_fatal env_no_backend rfl).2.2.2.1⟩

/-- C11 (code defect): when `dlsym` does not find `SDL_JoystickAttachVirtualEx`, the
miss is logged and bootstrap goes on; at the first slot whose two opens succeed it calls
through the `NULL` pointer. The run ends there, with descriptors 3 and 4 of slot 0 still
stored in the slot arrays and never closed. -/
theorem C11_unresolved_attach_is_called :
    env_attach_missing.dlopen_ok = true
    ∧ env_attach_missing.dlsym.SDL_JoystickAttachVirtualEx = false
    ∧ Event.dlsym "SDL_JoystickAttachVirtualEx" false ∈ (initialize_all_pads env_attach_missing).trace
    ∧ (initialize_all_pads env_attach_missing).crashed = true
    ∧ aget (initialize_all_pads env_attach_missing).g.read_fd 0 = 3
    ∧ aget (initialize_all_pads env_attach_missing).g.rumble_fd 0 = 4
    ∧ (initialize_all_pads env_attach_missing).trace.any is_close = false
    ∧ (initialize_all_pads env_attach_missing).trace.getLast?
        = some (Event.open_call (some (pad_path 0)) O_WRONLY 0 4) := by
  decide

/-- C12: for a path that begins with "/dev/input/event" the interposed `open` and
`open64` return -1 with `errno = ENOENT` and make no call of the real `open`, whatever
the flags; for every other path, and for a `NULL` path, they make one call of the real
`open` and return exactly what that call returned. -/
theorem C12_open_event_node_not_found (real_open : Option String → Nat → Nat → Int)
    (flags ap : Nat) :
    (∀ s : String, "/dev/input/event".toList <+: s.toList →
        «open» real_open (some s) flags ap = ⟨-1, some ENOENT, []⟩
          ∧ open64 real_open (some s) flags ap = ⟨-1, some ENOENT, []⟩)
    ∧ (∀ path : Option String,
        (∀ s : String, path = some s → ¬ "/dev/input/event".toList <+: s.toList) →
        ∃ mode ret, ret = real_open path flags mode
          ∧ «open» real_open path flags ap = ⟨ret, none, [Event.open_call path flags mode ret]⟩
          ∧ open64 real_open path flags ap = ⟨ret, none, [Event.open_call path flags mode ret]⟩) := by
  constructor
  · intro s hs
    have h : is_event_node (some s) = true := (is_event_node_iff s).mpr hs
    simp [«open», open64, open_common, h]
  · intro path hp
    have h : is_event_node path = false := by
      cases path with
      | none => rfl
      | some s =>
          have := hp s rfl
          rw [← is_event_node_iff] at this
          simpa using this
    refine ⟨if flags &&& O_CREAT ≠ 0 then ap else 0, _, rfl, ?_, ?_⟩ <;>
      simp [«open», open64, open_common, h]

/-- C12 at concrete inputs: an event node and an ordinary path. -/
theorem C12_open_event_node_not_found_witness :
    «open» (fun _ _ _ => 7) (some "/dev/input/event3") O_RDONLY 0 = ⟨-1, some ENOENT, []⟩
    ∧ (∃ mode ret, ret = (fun _ _ _ => 7 : Option String → Nat → Nat → Int) (some "/etc/hosts") O_RDONLY mode
        ∧ «open» (fun _ _ _ => 7) (some "/etc/hosts") O_RDONLY 0
            = ⟨ret, none, [Event.open_call (some "/etc/hosts") O_RDONLY mode ret]⟩
        ∧ open64 (fun _ _ _ => 7) (some "/etc/hosts") O_RDONLY 0
            = ⟨ret, none, [Event.open_call (some "/etc/hosts") O_RDONLY mode ret]⟩) :=
  ⟨((C12_open_event_node_not_found (fun _ _ _ => 7) O_RDONLY 0).1 "/dev/input/event3"
      (by decide)).1,
    (C12_open_event_node_not_found (fun _ _ _ => 7) O_RDONLY 0).2 (some "/etc/hosts")
      (by intro s hs; cases hs; decide)⟩

/-- C13: for a descriptor whose resolved path begins with "/dev/input/event", however
long that path is, the interposed `ioctl` returns -1 with `errno = ENOTTY` without
calling the real `ioctl`, and the interposed `read` returns -1 with `errno = EAGAIN`,
stores no byte into the buffer of the caller and leaves the descriptor as it was (the
real `read` is not called). -/
theorem C13_event_descriptor_refused (real_ioctl : Int → Int → Nat → Int) (k : Kernel)
    (fd : Int) (f : OpenFile) (req : Int) (arg count : Nat) (hopen : k.fdtab fd = some f)
    (hp : "/dev/input/event".toList <+: f.path.toList) :
    ioctl real_ioctl k fd req arg = ⟨-1, some ENOTTY, none⟩
      ∧ read k fd count = ⟨k, -1, some EAGAIN, []⟩ := by
  obtain ⟨path, h1, h2⟩ := resolve_fd_event k fd f hopen hp
  simp [ioctl, read, h1, h2]

/-- C13 at a concrete input: descriptor 6, whose path has 86 characters. -/
theorem C13_event_descriptor_refused_witness :
    (kernel_event.fdtab 6 = some ⟨long_event_path, true, false, 0⟩
      ∧ 63 < long_event_path.length
      ∧ "/dev/input/event".toList <+: long_event_path.toList)
    ∧ ioctl (fun _ _ _ => 0) kernel_event 6 1 0 = ⟨-1, some ENOTTY, none⟩
    ∧ read kernel_event 6 36 = ⟨kernel_event, -1, some EAGAIN, []⟩ :=
  ⟨by decide,
    C13_event_descriptor_refused (fun _ _ _ => 0) kernel_event 6 ⟨long_event_path, true, false, 0⟩
      1 0 36 (by decide) (by decide)⟩

/-- C14 as stated fails: for a path outside the reserved prefix and flags without
`O_CREAT`, the mode the caller supplied (here 0600 = 384) is not passed on: the real
`open` is called with mode 0, both for plain `O_WRONLY` and for `O_TMPFILE | O_RDWR`,
and both by `open` and by `open64`. -/
theorem C14_mode_dropped_without_creat_counterexample :
    is_event_node (some "/tmp") = false
    ∧ O_WRONLY &&& O_CREAT = 0
    ∧ («open» (fun _ _ mode => (mode : Int)) (some "/tmp") O_WRONLY 384).trace
        = [Event.open_call (some "/tmp") O_WRONLY 0 0]
    ∧ (O_TMPFILE ||| O_RDWR) &&& O_CREAT = 0
    ∧ («open» (fun _ _ mode => (mode : Int)) (some "/tmp") (O_TMPFILE ||| O_RDWR) 384).trace
        = [Event.open_call (some "/tmp") (O_TMPFILE ||| O_RDWR) 0 0]
    ∧ (open64 (fun _ _ mode => (mode : Int)) (some "/tmp") (O_TMPFILE ||| O_RDWR) 384).trace
        = [Event.open_call (some "/tmp") (O_TMPFILE ||| O_RDWR) 0 0] := by
  decide

/-- C14 (amended): for every path outside the reserved prefix (a `NULL` path included)
the interposed `open` and `open64` make exactly one call of the real `open`, with the
path and the flags of the caller; the mode of the caller is passed on when the flags
contain `O_CREAT`, and without `O_CREAT` the variable argument is not read and the
mode passed is 0. -/
theorem C14_pass_through_mode_on_creat (real_open : Option String → Nat → Nat → Int)
    (path : Option String) (flags ap : Nat)
    (hp : ∀ s : String, path = some s → ¬ "/dev/input/event".toList <+: s.toList) :
    (flags &&& O_CREAT ≠ 0 →
        («open» real_open path flags ap).trace
            = [Event.open_call path flags ap (real_open path flags ap)]
          ∧ (open64 real_open path flags ap).trace
            = [Event.open_call path flags ap (real_open path flags ap)])
    ∧ (flags &&& O_CREAT = 0 →
        («open» real_open path flags ap).trace
            = [Event.open_call path flags 0 (real_open path flags 0)]
          ∧ (open64 real_open path flags ap).trace
            = [Event.open_call path flags 0 (real_open path flags 0)]) := by
  have h : is_event_node path = false := by
    cases path with
    | none => rfl
    | some s =>
        have := hp s rfl
        rw [← is_event_node_iff] at this
        simpa using this
  constructor <;> intro hf <;> simp [«open», open64, open_common, h, hf]

/-- C14 (amended) at a concrete input: `open("/etc/hosts", O_WRONLY | O_CREAT, 0644)`. -/
theorem C14_pass_through_mode_on_creat_witness :
    (O_WRONLY ||| O_CREAT) &&& O_CREAT ≠ 0
    ∧ («open» (fun _ _ _ => 7) (some "/etc/hosts") (O_WRONLY ||| O_CREAT) 420).trace
        = [Event.open_call (some "/etc/hosts") (O_WRONLY ||| O_CREAT) 420 7]
    ∧ (open64 (fun _ _ _ => 7) (some "/etc/hosts") (O_WRONLY ||| O_CREAT) 420).trace
        = [Event.open_call (some "/etc/hosts") (O_WRONLY ||| O_CREAT) 420 7] :=
  ⟨by decide,
    (C14_pass_through_mode_on_creat (fun _ _ _ => 7) (some "/etc/hosts") (O_WRONLY ||| O_CREAT)
      420 (by intro s hs; cases hs; decide)).1 (by decide)⟩

/-- C15: the interception predicate is exactly a prefix test. It holds for a path if and
only if the path is not `NULL` and begins with the 16 characters "/dev/input/event";
it fails for `NULL`, for every path shorter than 16 characters and for "/dev/input". -/
theorem C15_is_event_node_is_prefix_test :
    "/dev/input/event".length = 16
    ∧ (∀ p : Option String,
        is_event_node p = true ↔ ∃ s, p = some s ∧ "/dev/input/event".toList <+: s.toList)
    ∧ is_event_node none = false
    ∧ (∀ s : String, s.length < 16 → is_event_node (some s) = false)
    ∧ is_event_node (some "/dev/input") = false := by
  refine ⟨by decide, ?_, rfl, ?_, by decide⟩
  · intro p
    cases p with
    | none => simp [is_event_node]
    | some s => simp [is_event_node_iff]
  · intro s hs
    by_contra h
    have h1 : is_event_node (some s) = true := by simpa using h
    rw [is_event_node_iff] at h1
    have := h1.length_le
    have h16 : "/dev/input/event".toList.length = 16 := by decide
    rw [h16] at this
    have hl : s.length = s.toList.length := rfl
    omega

/-- C16 as stated fails for numerals outside the range of `int`. For
`EVSHIM_MAX_PLAYERS=4294967297` the formula `max(0, min(value, 4))` gives 4 slots, yet
bootstrap sets up slot 0 only; for `EVSHIM_MAX_PLAYERS=-2147483649` the formula gives
no slot, yet bootstrap sets up slots 0..3. -/
theorem C16_numeral_outside_int_range_counterexample :
    (toString (4294967297 : Int) = "4294967297"
      ∧ max (0 : Int) (min 4294967297 4) = 4
      ∧ (configured_players (env_players "4294967297").EVSHIM_MAX_PLAYERS).toNat = 1
      ∧ slot_set_up (initialize_all_pads (env_players "4294967297")).trace 0 = true
      ∧ slot_set_up (initialize_all_pads (env_players "4294967297")).trace 1 = false)
    ∧ (toString (-2147483649 : Int) = "-2147483649"
      ∧ max (0 : Int) (min (-2147483649) 4) = 0
      ∧ (configured_players (env_players "-2147483649").EVSHIM_MAX_PLAYERS).toNat = 4
      ∧ slot_set_up (initialize_all_pads (env_players "-2147483649")).trace 0 = true
      ∧ slot_set_up (initialize_all_pads (env_players "-2147483649")).trace 3 = true) := by
  decide

/-- C16 (amended): the player count is clamped to `MAX_GAMEPADS`. For every value of
`EVSHIM_MAX_PLAYERS` the per-player loop is the loop body run for the indices
`0, ..., k-1` in order with `k` at most 4, and (when the backend loads and the entry
points bootstrap calls are resolved) the backing files bootstrap tries to open are
exactly those of the slots below `k`. Here `k = 1` when the variable is unset,
`k = max(0, min(v, 4))` when it holds the decimal numeral of an integer `v` in the
range of `int`, and `k = 0` when its value does not start with white space, a sign or
a digit. -/
theorem C16_player_count_clamped (env : Env) (hload : env.dlopen_ok = true)
    (hinit : env.dlsym.SDL_Init = true) (hver : env.dlsym.SDL_GetVersion = true)
    (hatt : env.dlsym.SDL_JoystickAttachVirtualEx = true)
    (herr : env.dlsym.SDL_GetError = true) :
    (env.EVSHIM_MAX_PLAYERS = none → (configured_players env.EVSHIM_MAX_PLAYERS).toNat = 1)
    ∧ (∀ v : Int, -(2 : Int) ^ 31 ≤ v → v < 2 ^ 31 →
        env.EVSHIM_MAX_PLAYERS = some (toString v) →
        (((configured_players env.EVSHIM_MAX_PLAYERS).toNat : Nat) : Int) = max 0 (min v 4))
    ∧ (∀ s : String, env.EVSHIM_MAX_PLAYERS = some s →
        (∀ c, s.toList.head? = some c →
          isspace c = false ∧ isdigit c = false ∧ c ≠ '-' ∧ c ≠ '+') →
        (configured_players env.EVSHIM_MAX_PLAYERS).toNat = 0)
    ∧ (configured_players env.EVSHIM_MAX_PLAYERS).toNat ≤ MAX_GAMEPADS
    ∧ initialize_all_pads env
        = (List.range (configured_players env.EVSHIM_MAX_PLAYERS).toNat).foldl
            (setup_slot env) (boot_state env)
    ∧ (∀ i : Nat, slot_set_up (initialize_all_pads env).trace i = true
        ↔ i < (configured_players env.EVSHIM_MAX_PLAYERS).toNat) := by
  have hle := configured_players_le env.EVSHIM_MAX_PLAYERS
  have hk : (configured_players env.EVSHIM_MAX_PLAYERS).toNat ≤ 4 := by omega
  refine ⟨?_, ?_, ?_, hk, ?_, ?_⟩
  · intro h
    rw [h]
    decide
  · intro v h1 h2 h
    rw [h, configured_players_some, atoi_toString v h1 h2, Int.toNat_eq_max, max_comm]
  · intro s h hs
    rw [h, configured_players_some, atoi_non_numeric s hs]
    decide
  · unfold initialize_all_pads
    simp only [hload, Bool.true_eq_false, if_false, hinit, hver]
    rw [per_player_setup_foldl, List.range_eq_range']
    simp [boot_state, boot_prelude, hload]
  · intro i
    obtain ⟨_, ht⟩ := initialize_all_pads_resolved env hload hinit hver hatt herr
    rw [ht, slot_set_up, List.any_append,
      any_quiet _ _ (fun e => is_slot_open_effect i e) (boot_prelude_quiet env),
      loop_events_opened env _ _ 0 i (by omega)]
    simp

/-- C16 (amended) at concrete inputs: `EVSHIM_MAX_PLAYERS=9` sets up slots 0..3 and no
other, `EVSHIM_MAX_PLAYERS=-3` and `EVSHIM_MAX_PLAYERS=abc` set up none. -/
theorem C16_player_count_clamped_witness :
    ((env_players "9").dlopen_ok = true ∧ (env_players "9").dlsym.SDL_Init = true
      ∧ (env_players "9").dlsym.SDL_GetVersion = true
      ∧ (env_players "9").dlsym.SDL_JoystickAttachVirtualEx = true
      ∧ (env_players "9").dlsym.SDL_GetError = true)
    ∧ (toString (9 : Int) = "9" ∧ toString (-3 : Int) = "-3")
    ∧ (((configured_players (env_players "9").EVSHIM_MAX_PLAYERS).toNat : Nat) : Int)
        = max 0 (min 9 4)
    ∧ (((configured_players (env_players "-3").EVSHIM_MAX_PLAYERS).toNat : Nat) : Int)
        = max 0 (min (-3) 4)
    ∧ (configured_players (env_players "abc").EVSHIM_MAX_PLAYERS).toNat = 0
    ∧ (configured_players (env_players "9").EVSHIM_MAX_PLAYERS).toNat ≤ MAX_GAMEPADS
    ∧ (slot_set_up (initialize_all_pads (env_players "9")).trace 3 = true
        ↔ 3 < (configured_players (env_players "9").EVSHIM_MAX_PLAYERS).toNat)
    ∧ (slot_set_up (initialize_all_pads (env_players "9")).trace 4 = true
        ↔ 4 < (configured_players (env_players "9").EVSHIM_MAX_PLAYERS).toNat) :=
  ⟨by decide, by decide,
    (C16_player_count_clamped (env_players "9") rfl rfl rfl rfl rfl).2.1 9 (by decide)
      (by decide) (by decide),
    (C16_player_count_clamped (env_players "-3") rfl rfl rfl rfl rfl).2.1 (-3) (by decide)
      (by decide) (by decide),
    (C16_player_count_clamped (env_players "abc") rfl rfl rfl rfl rfl).2.2.1 "abc" rfl
      (by decide),
    (C16_player_count_clamped (env_players "9") rfl rfl rfl rfl rfl).2.2.2.1,
    (C16_player_count_clamped (env_players "9") rfl rfl rfl rfl rfl).2.2.2.2.2 3,
    (C16_player_count_clamped (env_players "9") rfl rfl rfl rfl rfl).2.2.2.2.2 4⟩

/-- C17: the backing file of slot 0 is the bare base path, and for every slot index
from 1 to 3 it is the base path with the single decimal digit of the index inserted
immediately before ".mem"; none of the four is cut by the 256-byte buffer. -/
theorem C17_backing_file_paths :
    pad_path 0 = "/data/data/app.gamenative/files/imagefs/tmp/gamepad.mem"
    ∧ pad_path 1 = "/data/data/app.gamenative/files/imagefs/tmp/gamepad1.mem"
    ∧ pad_path 2 = "/data/data/app.gamenative/files/imagefs/tmp/gamepad2.mem"
    ∧ pad_path 3 = "/data/data/app.gamenative/files/imagefs/tmp/gamepad3.mem"
    ∧ (∀ i : Fin 4, 1 ≤ i.val →
        pad_path i.val = "/data/data/app.gamenative/files/imagefs/tmp/gamepad"
          ++ toString i.val ++ ".mem")
    ∧ (∀ i : Fin 4, (pad_path i.val).length < 256) := by
  decide

/-- C18: laid out by the C rule (each member at the next multiple of its alignment),
the members of `struct gamepad_io` sit at offsets lx 0, ly 2, rx 4, ry 6, lt 8, rt 10,
btn 12..26, hat 27, padding 28..31, low_freq_rumble 32, high_freq_rumble 34, and the
struct is 36 bytes long. The 4-byte rumble write at offset 32 therefore ends at the end
of the record, and on a 36-byte record it changes the two rumble fields, to the values
written, and no other field; the record stays 36 bytes long. -/
theorem C18_record_layout :
    member_offsets gamepad_io_members 0
        = [("lx", 0, 2), ("ly", 2, 4), ("rx", 4, 6), ("ry", 6, 8), ("lt", 8, 10),
           ("rt", 10, 12), ("btn", 12, 27), ("hat", 27, 28), ("_padding", 28, 32),
           ("low_freq_rumble", 32, 34), ("high_freq_rumble", 34, 36)]
    ∧ struct_sizeof gamepad_io_members = 36
    ∧ sizeof_gamepad_io = struct_sizeof gamepad_io_members
    ∧ 32 + (u16_bytes 0 ++ u16_bytes 0).length = sizeof_gamepad_io
    ∧ (∀ (m : List Nat) (low high : Nat), m.length = 36 → low < 65536 → high < 65536 →
        gamepad_io.of_bytes (write_at m 32 (u16_bytes low ++ u16_bytes high))
            = { gamepad_io.of_bytes m with low_freq_rumble := low, high_freq_rumble := high }
          ∧ (write_at m 32 (u16_bytes low ++ u16_bytes high)).length = 36) := by
  refine ⟨by decide, by decide, by decide, by decide, ?_⟩
  intro m low high hm hlow hhigh
  refine ⟨of_bytes_write m low high hm hlow hhigh, ?_⟩
  rw [write_at_length, hm]
  simp [u16_bytes]

/-- C18 at a concrete input: the rumble write of 7 and 9 on the all-zero record. -/
theorem C18_record_layout_witness :
    gamepad_io.of_bytes (write_at zero_record 32 (u16_bytes 7 ++ u16_bytes 9))
        = { gamepad_io.of_bytes zero_record with low_freq_rumble := 7, high_freq_rumble := 9 }
      ∧ (write_at zero_record 32 (u16_bytes 7 ++ u16_bytes 9)).length = 36 :=
  C18_record_layout.2.2.2.2 zero_record 7 9 (by decide) (by decide) (by decide)

/-- C19: `OnRumble` returns 0 whenever the index is in range and the stored write
descriptor is not negative, whatever the `pwrite` did (all 4 bytes, fewer, or an
error), and it returns -1 exactly when the index check or the descriptor check
fails. -/
theorem C19_rumble_best_effort :
    (∀ (g : Globals) (k : Kernel) (accept idx : Int) (low high : Nat),
        (0 ≤ idx ∧ idx < 4 ∧ 0 ≤ aget g.rumble_fd idx.toNat →
            (OnRumble g k accept idx low high).ret = 0)
        ∧ ((OnRumble g k accept idx low high).ret = -1
            ↔ (idx < 0 ∨ 4 ≤ idx ∨ aget g.rumble_fd idx.toNat < 0)))
    ∧ (Event.pwrite 4 [7, 0, 9, 0] 4 32 4
          ∈ (OnRumble (initialize_all_pads env_one).g kernel_one 4 0 7 9).trace
        ∧ (OnRumble (initialize_all_pads env_one).g kernel_one 4 0 7 9).ret = 0)
    ∧ (Event.pwrite 4 [7, 0, 9, 0] 4 32 2
          ∈ (OnRumble (initialize_all_pads env_one).g kernel_one 2 0 7 9).trace
        ∧ (OnRumble (initialize_all_pads env_one).g kernel_one 2 0 7 9).ret = 0)
    ∧ (Event.pwrite 4 [7, 0, 9, 0] 4 32 (-1)
          ∈ (OnRumble (initialize_all_pads env_one).g kernel_one (-1) 0 7 9).trace
        ∧ (OnRumble (initialize_all_pads env_one).g kernel_one (-1) 0 7 9).ret = 0) := by
  refine ⟨?_, by decide, by decide, by decide⟩
  intro g k accept idx low high
  by_cases hg : idx < 0 ∨ idx ≥ (MAX_GAMEPADS : Int) ∨ aget g.rumble_fd idx.toNat < 0
  · have hg2 : idx < 0 ∨ 4 ≤ idx ∨ aget g.rumble_fd idx.toNat < 0 := by
      simpa [MAX_GAMEPADS] using hg
    have hret : (OnRumble g k accept idx low high).ret = -1 := by
      simp only [OnRumble, if_pos hg]
    constructor
    · intro h
      omega
    · simp [hret, hg2]
  · have hg2 : ¬ (idx < 0 ∨ 4 ≤ idx ∨ aget g.rumble_fd idx.toNat < 0) := by
      simpa [MAX_GAMEPADS] using hg
    have hret : (OnRumble g k accept idx low high).ret = 0 := by
      simp only [OnRumble, if_neg hg]
    constructor
    · intro _
      exact hret
    · simp [hret, hg2]

/-- C20: in a poller turn whose `read` returned a negative value or fewer than 36
bytes, no publish call is made and the last-observed record is unchanged; and when
`SDL_Delay` is resolved the turn ends with the unlock and the 5 ms delay, after which
the loop takes its next turn. -/
theorem C20_transient_read_changes_nothing (p : Symbols) (st : Poller) (n : Int)
    (data : List Nat) (hn : n < (sizeof_gamepad_io : Int)) :
    publish_calls (poll_body p st n data).trace = []
      ∧ (poll_body p st n data).poller.last_state = st.last_state
      ∧ (p.SDL_Delay = true →
          (poll_body p st n data).crashed = false
          ∧ ∃ t, (poll_body p st n data).trace
              = t ++ [Event.mutex_unlock, Event.SDL_Delay 5]) := by
  rw [poll_body_short p st n data (by omega)]
  refine ⟨?_, ?_, ?_⟩
  · rw [publish_calls_finish]
    split <;> simp [publish_calls, is_publish, LOGE]
  · rw [poll_finish_poller]
  · intro hd
    simp only [poll_finish, hd, Bool.true_eq_false, if_false, true_and]
    exact ⟨_, rfl⟩

/-- C20 at concrete inputs: a failed read and a read of 10 bytes. -/
theorem C20_transient_read_changes_nothing_witness :
    ((-1 : Int) < (sizeof_gamepad_io : Int)
      ∧ publish_calls (poll_body Symbols.all poller_zero (-1) []).trace = []
      ∧ (poll_body Symbols.all poller_zero (-1) []).poller.last_state = poller_zero.last_state)
    ∧ ((10 : Int) < (sizeof_gamepad_io : Int)
      ∧ publish_calls (poll_body Symbols.all poller_zero 10 (List.replicate 10 1)).trace = []
      ∧ (poll_body Symbols.all poller_zero 10 (List.replicate 10 1)).poller.last_state
          = poller_zero.last_state) :=
  ⟨⟨by decide,
      (C20_transient_read_changes_nothing Symbols.all poller_zero (-1) [] (by decide)).1,
      (C20_transient_read_changes_nothing Symbols.all poller_zero (-1) [] (by decide)).2.1⟩,
    ⟨by decide,
      (C20_transient_read_changes_nothing Symbols.all poller_zero 10 (List.replicate 10 1)
        (by decide)).1,
      (C20_transient_read_changes_nothing Symbols.all poller_zero 10 (List.replicate 10 1)
        (by decide)).2.1⟩⟩

/-- C21: when a poller turn reads a full record that differs from the last-observed
one (and the three setters are resolved), the publish calls it makes are, in order,
axes 0..5 with `lx, ly, rx, ry, lt, rt` of the new record, buttons 0..14 with
`btn[0..14]` of the new record (the bytes at offsets 12..26) and hat 0 with its `hat`;
afterwards the last-observed record is the new record. -/
theorem C21_publishes_new_record (p : Symbols) (st : Poller) (data : List Nat)
    (hlen : data.length = sizeof_gamepad_io) (hcur : st.cur.length = sizeof_gamepad_io)
    (hlast : st.last_state.length = sizeof_gamepad_io) (hne : data ≠ st.last_state)
    (ha : p.SDL_JoystickSetVirtualAxis = true) (hb : p.SDL_JoystickSetVirtualButton = true)
    (hh : p.SDL_JoystickSetVirtualHat = true) :
    publish_calls (poll_body p st sizeof_gamepad_io data).trace
        = [Event.SDL_JoystickSetVirtualAxis 0 (gamepad_io.of_bytes data).lx,
           Event.SDL_JoystickSetVirtualAxis 1 (gamepad_io.of_bytes data).ly,
           Event.SDL_JoystickSetVirtualAxis 2 (gamepad_io.of_bytes data).rx,
           Event.SDL_JoystickSetVirtualAxis 3 (gamepad_io.of_bytes data).ry,
           Event.SDL_JoystickSetVirtualAxis 4 (gamepad_io.of_bytes data).lt,
           Event.SDL_JoystickSetVirtualAxis 5 (gamepad_io.of_bytes data).rt]
          ++ (List.range 15).map
              (fun i => Event.SDL_JoystickSetVirtualButton i
                ((gamepad_io.of_bytes data).btn.getD i 0))
          ++ [Event.SDL_JoystickSetVirtualHat 0 (gamepad_io.of_bytes data).hat]
      ∧ (∀ i : Fin 15, (gamepad_io.of_bytes data).btn.getD i.val 0 = byte_at data (12 + i.val))
      ∧ (poll_body p st sizeof_gamepad_io data).poller.last_state = data
      ∧ gamepad_io.of_bytes (poll_body p st sizeof_gamepad_io data).poller.last_state
          = gamepad_io.of_bytes data := by
  obtain ⟨h1, h2⟩ := poll_body_differ p st data hlen hcur hlast hne ha hb hh
  refine ⟨?_, ?_, h2, by rw [h2]⟩
  · rw [h1]
    rfl
  · intro i
    fin_cases i <;> rfl

/-- C21 at a concrete input: the record with `lx = 1` read after the all-zero record. -/
theorem C21_publishes_new_record_witness :
    (record_a.length = sizeof_gamepad_io
      ∧ poller_zero.cur.length = sizeof_gamepad_io
      ∧ poller_zero.last_state.length = sizeof_gamepad_io
      ∧ record_a ≠ poller_zero.last_state)
    ∧ (gamepad_io.of_bytes record_a).lx = 1
    ∧ (poll_body Symbols.all poller_zero sizeof_gamepad_io record_a).poller.last_state
        = record_a :=
  ⟨by decide, by decide,
    (C21_publishes_new_record Symbols.all poller_zero record_a (by decide) (by decide)
      (by decide) (by decide) rfl rfl rfl).2.2.1⟩

/-- C22: the lock discipline holds on every trace of one `OnRumble` call and, when the
three setters are resolved, of one poller turn: the lock is acquired once, the `pwrite`
or `read` happens while it is held, and it is released before the call or the turn
ends. A poller turn starts with the acquire followed by the `read`; an accepted
`OnRumble` call is the acquire, the `pwrite`, the release, then only log lines; a
rejected `OnRumble` call makes no call at all and leaves the files untouched. -/
theorem C22_lock_discipline :
    (∀ (g : Globals) (k : Kernel) (accept idx : Int) (low high : Nat),
        lock_ok false (OnRumble g k accept idx low high).trace = true
        ∧ ((idx < 0 ∨ 4 ≤ idx ∨ aget g.rumble_fd idx.toNat < 0) →
            (OnRumble g k accept idx low high).trace = []
            ∧ (OnRumble g k accept idx low high).kernel = k)
        ∧ (0 ≤ idx ∧ idx < 4 ∧ 0 ≤ aget g.rumble_fd idx.toNat →
            ∃ w logs, (OnRumble g k accept idx low high).trace
                = [Event.mutex_lock,
                   Event.pwrite (aget g.rumble_fd idx.toNat)
                     (u16_bytes low ++ u16_bytes high) 4 32 w,
                   Event.mutex_unlock] ++ logs
              ∧ ∀ e ∈ logs, is_lock_relevant e = false))
    ∧ (∀ (p : Symbols) (st : Poller) (n : Int) (data : List Nat),
        p.SDL_JoystickSetVirtualAxis = true → p.SDL_JoystickSetVirtualButton = true →
        p.SDL_JoystickSetVirtualHat = true →
        lock_ok false (poll_body p st n data).trace = true
        ∧ ∃ rest, (poll_body p st n data).trace
            = Event.mutex_lock :: Event.read st.fd sizeof_gamepad_io n :: rest)
    ∧ (∀ (p : Symbols) (k : Kernel) (st : Poller),
        p.SDL_JoystickSetVirtualAxis = true → p.SDL_JoystickSetVirtualButton = true →
        p.SDL_JoystickSetVirtualHat = true →
        lock_ok false (vjoy_updater_iter p k st).2.trace = true) := by
  refine ⟨?_, ?_, ?_⟩
  · intro g k accept idx low high
    by_cases hg : idx < 0 ∨ idx ≥ (MAX_GAMEPADS : Int) ∨ aget g.rumble_fd idx.toNat < 0
    · have hg2 : idx < 0 ∨ 4 ≤ idx ∨ aget g.rumble_fd idx.toNat < 0 := by
        simpa [MAX_GAMEPADS] using hg
      have ht : (OnRumble g k accept idx low high).trace = [] := by
        simp only [OnRumble, if_pos hg]
      have hk : (OnRumble g k accept idx low high).kernel = k := by
        simp only [OnRumble, if_pos hg]
      refine ⟨by rw [ht]; rfl, fun _ => ⟨ht, hk⟩, ?_⟩
      intro h
      omega
    · have hg2 : ¬ (idx < 0 ∨ 4 ≤ idx ∨ aget g.rumble_fd idx.toNat < 0) := by
        simpa [MAX_GAMEPADS] using hg
      have h0 : 0 ≤ idx := by omega
      have h1 : idx < 4 := by omega
      have hfd : 0 ≤ aget g.rumble_fd idx.toNat := by omega
      have hlogs : ∀ e ∈ (if (sys_pwrite k accept (aget g.rumble_fd idx.toNat)
            (u16_bytes low ++ u16_bytes high) 4 32).2 ≠ 4
            then LOGE "Rumble write failed (P%d): %s\n" else [])
          ++ LOGD g.g_debug_enabled "Rumble P%d  low=%u  high=%u\n",
          is_lock_relevant e = false := by
        intro e he
        rw [List.mem_append] at he
        rcases he with he | he
        · split_ifs at he
          · simp [LOGE] at he
            rw [he]; rfl
          · simp at he
        · cases hd : g.g_debug_enabled <;> simp [LOGD, hd] at he
          rw [he]; rfl
      rw [OnRumble_accepted g k accept idx low high h0 h1 hfd]
      refine ⟨?_, fun h => absurd h hg2, fun _ => ⟨_, _, List.append_assoc _ _ _, hlogs⟩⟩
      rw [List.append_assoc]
      simp only [List.cons_append, List.nil_append, lock_ok, Bool.not_false, Bool.true_and]
      exact lock_ok_neutral_only _ hlogs
  · intro p st n data ha hb hh
    refine ⟨poll_body_lock_ok p st n data ha hb hh, ?_⟩
    unfold poll_body
    simp only [publish_resolved p _ ha hb hh, Bool.false_eq_true, if_false]
    split_ifs <;> unfold poll_finish <;> split <;> exact ⟨_, rfl⟩
  · intro p k st ha hb hh
    exact poll_body_lock_ok p st _ _ ha hb hh

/-- C23 (code defect): at load time only element 0 of each slot array holds the
sentinel. The initializer `{-1}` names the first element only, so the entries of
slots 1..3 in `vjoy_ids`, `read_fd` and `rumble_fd` are 0, not -1. -/
theorem C23_initial_entries_not_all_sentinel :
    Globals.init.vjoy_ids = [-1, 0, 0, 0]
    ∧ Globals.init.read_fd = [-1, 0, 0, 0]
    ∧ Globals.init.rumble_fd = [-1, 0, 0, 0]
    ∧ aget Globals.init.read_fd 1 = 0
    ∧ aget Globals.init.rumble_fd 1 = 0
    ∧ aget Globals.init.vjoy_ids 1 = 0
    ∧ (∀ i : Fin 4, 1 ≤ i.val →
        aget Globals.init.read_fd i.val ≠ -1 ∧ aget Globals.init.rumble_fd i.val ≠ -1
          ∧ aget Globals.init.vjoy_ids i.val ≠ -1) := by
  decide

/-- C24 (code defect): with `EVSHIM_DEBUG` set to the empty string debug logging is
enabled, because `strchr("1yY", 0)` finds the terminating NUL. In general the flag is
set exactly when the variable is set and its first character is '1', 'y', 'Y' or the
terminator (the value is empty); it is clear when the variable is unset. -/
theorem C24_empty_value_enables_debug :
    debug_enabled (some "") = true
    ∧ (initialize_all_pads env_debug_empty).g.g_debug_enabled = true
    ∧ debug_enabled none = false
    ∧ (∀ s : String, debug_enabled (some s) = true
        ↔ (deref s = '1' ∨ deref s = 'y' ∨ deref s = 'Y' ∨ (deref s).toNat = 0))
    ∧ debug_enabled (some "1") = true ∧ debug_enabled (some "yes") = true
    ∧ debug_enabled (some "Y") = true ∧ debug_enabled (some "0") = false
    ∧ debug_enabled (some "no") = false := by
  refine ⟨by decide, by decide, by decide, ?_, by decide, by decide, by decide, by decide,
    by decide⟩
  intro s
  have hl : "1yY".toList = ['1', 'y', 'Y'] := by decide
  simp only [debug_enabled, hl, strchr]
  by_cases h1 : '1' = deref s
  · simp [h1.symm]
  · by_cases h2 : 'y' = deref s
    · simp [h2.symm]
    · by_cases h3 : 'Y' = deref s
      · simp [h3.symm]
      · have e1 : ¬ deref s = '1' := fun e => h1 e.symm
        have e2 : ¬ deref s = 'y' := fun e => h2 e.symm
        have e3 : ¬ deref s = 'Y' := fun e => h3 e.symm
        by_cases h4 : (deref s).toNat = 0 <;> simp [h1, h2, h3, h4, e1, e2, e3]

end Evshim
